import Mathlib

/-!
# Arx Libertatis: the OpenGL renderer state cache

A shallow embedding of `src/graphics/opengl/OpenGLRenderer.cpp`.  The renderer keeps two
snapshots of the pipeline configuration, the requested one (`m_state`) and the one last sent
to the driver (`m_glstate`); `flushState` sends the difference to the driver.  Every modelled
member function returns the list of driver calls it issues, in order, together with the new
renderer; the renderer value also carries the statics of the translation unit.
-/

namespace Arx

/-! ## Driver vocabulary -/

/-- The OpenGL constants that the modelled functions pass to the driver. -/
inductive GLenum
  | GL_NONE | GL_BACK | GL_FRONT
  | GL_CULL_FACE | GL_FOG | GL_SAMPLE_ALPHA_TO_COVERAGE | GL_ALPHA_TEST | GL_DEPTH_TEST
  | GL_POLYGON_OFFSET_FILL | GL_BLEND | GL_MULTISAMPLE | GL_SCISSOR_TEST
  | GL_NEVER | GL_LESS | GL_EQUAL | GL_LEQUAL | GL_GREATER | GL_NOTEQUAL | GL_GEQUAL | GL_ALWAYS
  | GL_ZERO | GL_ONE | GL_SRC_COLOR | GL_SRC_ALPHA | GL_ONE_MINUS_SRC_COLOR
  | GL_ONE_MINUS_SRC_ALPHA | GL_SRC_ALPHA_SATURATE | GL_DST_COLOR | GL_DST_ALPHA
  | GL_ONE_MINUS_DST_COLOR | GL_ONE_MINUS_DST_ALPHA
  | GL_FOG_MODE | GL_LINEAR | GL_UNPACK_ALIGNMENT | GL_PACK_ALIGNMENT
  | GL_MODELVIEW | GL_PROJECTION
  deriving DecidableEq, Repr

/-- A finite `GLfloat` value, represented by the rational number it denotes. -/
abbrev GLfloat := Rat

/-- The value of the C++ conversion `GLfloat(n)` of a natural number below `2 ^ 128`: the
nearest number with a 24 bit significand, ties going to the even significand. -/
def GLfloat.roundNat (n : Nat) : Nat :=
  if n < 2 ^ 24 then n
  else
    let e := Nat.log2 n - 23
    let q := n / 2 ^ e
    let r := n % 2 ^ e
    let up := decide (2 ^ e < 2 * r) || (decide (2 * r = 2 ^ e) && decide (q % 2 = 1))
    (if up then q + 1 else q) * 2 ^ e

/-- The value of the C++ conversion `GLfloat(d)` of an integer (sign and rounded magnitude). -/
def GLfloat.ofInt (d : Int) : GLfloat :=
  if d < 0 then -((GLfloat.roundNat d.natAbs : Nat) : Rat)
  else ((GLfloat.roundNat d.natAbs : Nat) : Rat)

/-- The value of a 32 bit `int` expression whose exact result is `x`: the result wraps to the
range from `-2 ^ 31` to `2 ^ 31 - 1`, as the compiled code computes it. -/
def wrapInt32 (x : Int) : Int := (x + 2147483648) % 4294967296 - 2147483648

/-- A value of the type `float` as the result of an operation: a finite number (given by the
rational it denotes, the sign of a zero not being recorded), an infinity, or a NaN. -/
inductive FloatValue
  | finite (q : Rat)
  | inf (negative : Bool)
  | nan
  deriving DecidableEq, Repr

/-- The power `2 ^ e` for an integer exponent. -/
def FloatValue.pow2 (e : Int) : Rat :=
  if 0 ≤ e then ((2 ^ e.toNat : Nat) : Rat) else 1 / ((2 ^ (-e).toNat : Nat) : Rat)

/-- For a positive rational `q`, the exponent `e` with `2 ^ e ≤ q < 2 ^ (e + 1)`. -/
def FloatValue.floorLog2 (q : Rat) : Int :=
  let e0 : Int := (Nat.log2 q.num.natAbs : Int) - (Nat.log2 q.den : Int)
  if FloatValue.pow2 e0 ≤ q then e0 else e0 - 1

/-- The integer nearest to a rational `m ≥ 0`, a tie going to the even one. -/
def FloatValue.nearestEven (m : Rat) : Int :=
  let fl : Int := m.num / (m.den : Int)
  let frac : Rat := m - (fl : Rat)
  if 1 / 2 < frac ∨ (frac = 1 / 2 ∧ fl % 2 = 1) then fl + 1 else fl

/-- Rounding of an exact result to `float` (binary32, round to nearest, ties to even): 24
bits of significand, exponents from `-126` on (below that the spacing stays `2 ^ (-149)`),
and an infinity once the rounded magnitude reaches `2 ^ 128`. -/
def FloatValue.round (q : Rat) : FloatValue :=
  if q = 0 then FloatValue.finite 0
  else
    let a : Rat := |q|
    let e : Int := max (FloatValue.floorLog2 a) (-126)
    let ulp : Rat := FloatValue.pow2 (e - 23)
    let r : Rat := (FloatValue.nearestEven (a / ulp) : Rat) * ulp
    if FloatValue.pow2 128 ≤ r then FloatValue.inf (decide (q < 0))
    else FloatValue.finite (if q < 0 then -r else r)

/-- The `float` quotient `x / y` of two finite `float` values, the divisor zero being `+0`:
a division of a non-zero value by zero gives an infinity with the sign of `x`, and `0 / 0`
a NaN. -/
def FloatValue.div (x y : Rat) : FloatValue :=
  if y = 0 then (if x = 0 then FloatValue.nan else FloatValue.inf (decide (x < 0)))
  else FloatValue.round (x / y)

/-- The `float` difference `x - y` of two finite `float` values. -/
def FloatValue.sub (x y : Rat) : FloatValue := FloatValue.round (x - y)

/-- The sixteen floats of a `glm::mat4x4`, each given by its bit pattern, so that equality of
two values is the `memcmp` equality the source uses. -/
structure Mat4 where
  bits : List Nat
  deriving DecidableEq, Repr

/-- Modelled from the spec: `Rect` (math/Rectangle.h is not among the sources), an axis-aligned
pixel rectangle with a top-left origin; its four coordinates are 32 bit `int` values. -/
structure Rect where
  left : Int
  top : Int
  right : Int
  bottom : Int
  deriving DecidableEq, Repr

/-- Modelled from the spec: `Rect::width`, the difference `right - left` computed in 32 bit
`int`. -/
def Rect.width (r : Rect) : Int := wrapInt32 (r.right - r.left)

/-- Modelled from the spec: `Rect::height`, the difference `bottom - top` computed in 32 bit
`int`. -/
def Rect.height (r : Rect) : Int := wrapInt32 (r.bottom - r.top)

/-- Modelled from the spec: `Color` (graphics/Color.h is not among the sources), four 8 bit
channels. -/
structure Color where
  r : Nat
  g : Nat
  b : Nat
  a : Nat
  deriving DecidableEq, Repr

/-- One call made by the renderer, as recorded in the trace.  `glClearColor` records the
channels of the `Color` whose `to<float>()` components are passed; `textureStage i op` stands
for a driver call `op` made by `GLTextureStage::apply` of stage `i`, and
`updateMaxAnisotropy t` for the call of that member of texture `t`. -/
inductive GLcall
  | glEnable (cap : GLenum)
  | glDisable (cap : GLenum)
  | glCullFace (mode : GLenum)
  | glDepthFunc (func : GLenum)
  | glDepthMask (flag : Bool)
  | glPolygonOffset (factor units : GLfloat)
  | glBlendFunc (sfactor dfactor : GLenum)
  | glFogi (pname param : GLenum)
  | glAlphaFunc (func : GLenum) (ref : GLfloat)
  | glPixelStorei (pname : GLenum) (param : Int)
  | glClearColor (col : Color)
  | glClearDepth (depth : GLfloat)
  | glClear (color depth : Bool)
  | glScissor (x y width height : Int)
  | glViewport (x y width height : Int)
  | glMatrixMode (mode : GLenum)
  | glLoadMatrixf (m : Mat4)
  | glLoadIdentity
  | glTranslatef (x y z : FloatValue)
  | glScalef (x y z : FloatValue)
  | textureStage (stage : Nat) (op : Nat)
  | updateMaxAnisotropy (texture : Nat)
  deriving DecidableEq, Repr

/-! ## Pipeline state -/

/-- The culling modes of `Renderer` (`CullNone` and `CullCW` occur in the source; the third
mode is the counter-clockwise one). -/
inductive CullingMode
  | CullNone | CullCW | CullCCW
  deriving DecidableEq, Repr

/-- The blend factors, in the order of the table `arxToGlBlendFactor`. -/
inductive PixelBlendingFactor
  | BlendZero | BlendOne | BlendSrcColor | BlendSrcAlpha | BlendInvSrcColor | BlendInvSrcAlpha
  | BlendSrcAlphaSaturate | BlendDstColor | BlendDstAlpha | BlendInvDstColor | BlendInvDstAlpha
  deriving DecidableEq, Repr

/-- The pixel comparison functions, in the order of the table `arxToGlPixelCompareFunc`. -/
inductive PixelCompareFunc
  | CmpNever | CmpLess | CmpEqual | CmpLessEqual | CmpGreater | CmpNotEqual | CmpGreaterEqual
  | CmpAlways
  deriving DecidableEq, Repr

/-- Modelled from the spec: `RenderState` (graphics/Renderer.h is not among the sources), the
value type holding cull mode, fog, color key, depth test, depth write, the integer depth
offset and the two blend factors.  Its `!=` compares all fields. -/
structure RenderState where
  cull : CullingMode
  fog : Bool
  colorKey : Bool
  depthTest : Bool
  depthWrite : Bool
  depthOffset : Int
  blendSrc : PixelBlendingFactor
  blendDst : PixelBlendingFactor
  deriving DecidableEq, Repr

/-- Modelled from the spec: `RenderState::isBlendEnabled`.  The state holds no separate
blending flag: `reinit` enables `GL_BLEND` once and for all and records the factors
`(BlendOne, BlendZero)`, which write the source unchanged, as the state without blending;
any other pair of factors blends. -/
def RenderState.isBlendEnabled (s : RenderState) : Bool :=
  s.blendSrc != PixelBlendingFactor.BlendOne || s.blendDst != PixelBlendingFactor.BlendZero

/-- Table `arxToGlBlendFactor`. -/
def arxToGlBlendFactor : PixelBlendingFactor → GLenum
  | .BlendZero => .GL_ZERO
  | .BlendOne => .GL_ONE
  | .BlendSrcColor => .GL_SRC_COLOR
  | .BlendSrcAlpha => .GL_SRC_ALPHA
  | .BlendInvSrcColor => .GL_ONE_MINUS_SRC_COLOR
  | .BlendInvSrcAlpha => .GL_ONE_MINUS_SRC_ALPHA
  | .BlendSrcAlphaSaturate => .GL_SRC_ALPHA_SATURATE
  | .BlendDstColor => .GL_DST_COLOR
  | .BlendDstAlpha => .GL_DST_ALPHA
  | .BlendInvDstColor => .GL_ONE_MINUS_DST_COLOR
  | .BlendInvDstAlpha => .GL_ONE_MINUS_DST_ALPHA

/-- Table `arxToGlPixelCompareFunc`. -/
def arxToGlPixelCompareFunc : PixelCompareFunc → GLenum
  | .CmpNever => .GL_NEVER
  | .CmpLess => .GL_LESS
  | .CmpEqual => .GL_EQUAL
  | .CmpLessEqual => .GL_LEQUAL
  | .CmpGreater => .GL_GREATER
  | .CmpNotEqual => .GL_NOTEQUAL
  | .CmpGreaterEqual => .GL_GEQUAL
  | .CmpAlways => .GL_ALWAYS

/-! ## Texture stages -/

/-- Modelled from the spec: `GLTextureStage` (graphics/opengl/GLTextureStage.h is not among the
sources).  Changing a stage marks it dirty; `pending` names the driver calls that bring the
driver to the stage's requested configuration. -/
structure GLTextureStage where
  dirty : Bool
  pending : List Nat
  deriving DecidableEq, Repr

/-- Modelled from the spec: `GLTextureStage::apply` for stage `i`: a dirty stage issues its
pending calls and becomes clean, a clean stage issues nothing. -/
def GLTextureStage.apply (i : Nat) (s : GLTextureStage) : List GLcall × GLTextureStage :=
  if s.dirty then (s.pending.map (GLcall.textureStage i), { dirty := false, pending := [] })
  else ([], s)

/-! ## The renderer -/

/-- The transform cache modes (`enum GLTransformMode`). -/
inductive GLTransformMode
  | GL_UnsetTransform | GL_NoTransform | GL_ModelViewProjectionTransform
  deriving DecidableEq, Repr

/-- The entries of `config.video` that the renderer reads. -/
structure VideoConfig where
  antialiasing : Bool
  colorkeyAlphaToCoverage : Bool
  maxAnisotropicFiltering : Int
  bufferUpload : String
  deriving DecidableEq, Repr

/-- The members of `OpenGLRenderer` (with `m_state` of its base class `Renderer`) and the
statics `currentTransform`, `projection` and `view` of the translation unit.  `textures`
lists the identifiers of the loaded textures. -/
structure OpenGLRenderer where
  m_state : RenderState
  m_glstate : RenderState
  m_glcull : GLenum
  m_MSAALevel : Int
  m_hasMSAA : Bool
  m_hasTextureNPOT : Bool
  useVertexArrays : Bool
  useVBOs : Bool
  maxTextureStage : Nat
  m_TextureStages : List GLTextureStage
  m_maximumAnisotropy : GLfloat
  m_maximumSupportedAnisotropy : GLfloat
  viewport : Rect
  textures : List Nat
  currentTransform : GLTransformMode
  projection : Mat4
  view : Mat4
  deriving DecidableEq, Repr

open GLenum GLcall CullingMode PixelBlendingFactor

/-! ## flushState -/

/-- The cull block of `flushState` (lines 751-764): the calls and the new `m_glcull`. -/
def flushCull (gl st : RenderState) (m_glcull : GLenum) : List GLcall × GLenum :=
  if gl.cull ≠ st.cull then
    if st.cull = CullNone then
      ([glDisable GL_CULL_FACE], m_glcull)
    else
      let en := if gl.cull = CullNone then [glEnable GL_CULL_FACE] else []
      let glcull := if st.cull = CullCW then GL_BACK else GL_FRONT
      if m_glcull ≠ glcull then (en ++ [glCullFace glcull], glcull) else (en, m_glcull)
  else ([], m_glcull)

/-- The fog block of `flushState` (lines 766-772). -/
def flushFog (gl st : RenderState) : List GLcall :=
  if gl.fog ≠ st.fog then
    if st.fog then [glEnable GL_FOG] else [glDisable GL_FOG]
  else []

/-- The color key block of `flushState` (lines 774-802); `useA2C` is
`m_hasMSAA && config.video.colorkeyAlphaToCoverage`. -/
def flushColorKey (useA2C : Bool) (gl st : RenderState) : List GLcall :=
  if gl.colorKey ≠ st.colorKey
      ∨ (useA2C ∧ st.colorKey ∧ gl.isBlendEnabled ≠ st.isBlendEnabled) then
    let disableA2C := useA2C && !gl.isBlendEnabled && (!st.colorKey || st.isBlendEnabled)
    let enableA2C := useA2C && !st.isBlendEnabled && (!gl.colorKey || gl.isBlendEnabled)
    (if gl.colorKey then
      if disableA2C then [glDisable GL_SAMPLE_ALPHA_TO_COVERAGE]
      else if !st.colorKey || enableA2C then [glDisable GL_ALPHA_TEST]
      else []
    else [])
    ++
    (if st.colorKey then
      if enableA2C then [glEnable GL_SAMPLE_ALPHA_TO_COVERAGE]
      else if !gl.colorKey || disableA2C then [glEnable GL_ALPHA_TEST]
      else []
    else [])
  else []

/-- The depth test block of `flushState` (lines 804-806). -/
def flushDepthTest (gl st : RenderState) : List GLcall :=
  if gl.depthTest ≠ st.depthTest then
    [glDepthFunc (if st.depthTest then GL_LEQUAL else GL_ALWAYS)]
  else []

/-- The depth write block of `flushState` (lines 808-810). -/
def flushDepthWrite (gl st : RenderState) : List GLcall :=
  if gl.depthWrite ≠ st.depthWrite then
    [glDepthMask (if st.depthWrite then true else false)]
  else []

/-- The depth offset block of `flushState` (lines 812-815). -/
def flushDepthOffset (gl st : RenderState) : List GLcall :=
  if gl.depthOffset ≠ st.depthOffset then
    let depthOffset : GLfloat := -GLfloat.ofInt st.depthOffset
    [glPolygonOffset depthOffset depthOffset]
  else []

/-- The blend block of `flushState` (lines 817-822). -/
def flushBlend (gl st : RenderState) : List GLcall :=
  if gl.blendSrc ≠ st.blendSrc ∨ gl.blendDst ≠ st.blendDst then
    let blendSrc := arxToGlBlendFactor st.blendSrc
    let blendDst := arxToGlBlendFactor st.blendDst
    [glBlendFunc blendSrc blendDst]
  else []

/-- The loop `for(i = 0; i <= maxTextureStage; i++) GetTextureStage(i)->apply()` of
`flushState`, started at stage `i` on the stages from `i` on.  The source dereferences
`GetTextureStage(i)` without a check; the loop here ends with the array. -/
def applyStagesFrom (i maxTextureStage : Nat) :
    List GLTextureStage → List GLcall × List GLTextureStage
  | [] => ([], [])
  | s :: rest =>
    if i ≤ maxTextureStage then
      ((s.apply i).1 ++ (applyStagesFrom (i + 1) maxTextureStage rest).1,
       (s.apply i).2 :: (applyStagesFrom (i + 1) maxTextureStage rest).2)
    else ([], s :: rest)

/-- The part of `flushState` guarded by `m_glstate != m_state` (lines 749-825): the calls of
the seven blocks in source order. -/
def flushPipeline (cfg : VideoConfig) (r : OpenGLRenderer) : List GLcall :=
  if r.m_glstate ≠ r.m_state then
    (flushCull r.m_glstate r.m_state r.m_glcull).1
    ++ flushFog r.m_glstate r.m_state
    ++ flushColorKey (r.m_hasMSAA && cfg.colorkeyAlphaToCoverage) r.m_glstate r.m_state
    ++ flushDepthTest r.m_glstate r.m_state
    ++ flushDepthWrite r.m_glstate r.m_state
    ++ flushDepthOffset r.m_glstate r.m_state
    ++ flushBlend r.m_glstate r.m_state
  else []

/-- The function `OpenGLRenderer::flushState` (lines 747-831). -/
def OpenGLRenderer.flushState (cfg : VideoConfig) (r : OpenGLRenderer) :
    List GLcall × OpenGLRenderer :=
  (flushPipeline cfg r ++ (applyStagesFrom 0 r.maxTextureStage r.m_TextureStages).1,
   { r with
     m_glcull :=
       if r.m_glstate ≠ r.m_state then (flushCull r.m_glstate r.m_state r.m_glcull).2
       else r.m_glcull
     m_glstate := if r.m_glstate ≠ r.m_state then r.m_state else r.m_glstate
     m_TextureStages := (applyStagesFrom 0 r.maxTextureStage r.m_TextureStages).2 })

/-! ## The other members that write renderer state -/

/-- The flag set `BufferFlags`: which of `ColorBuffer` and `DepthBuffer` are present. -/
structure BufferFlags where
  ColorBuffer : Bool
  DepthBuffer : Bool
  deriving DecidableEq, Repr

/-- The constant `Color::none`, the default clear color. -/
def Color.none : Color := { r := 0, g := 0, b := 0, a := 0 }

/-- The function `OpenGLRenderer::Clear` (lines 473-511).  `height` is the window height, a 32
bit `int` like the coordinates of the rectangles, and `height - rect[i].bottom` is computed
in 32 bit `int`; `rects` holds the `nrects` rectangles behind `rect`. -/
def OpenGLRenderer.Clear (height : Int) (r : OpenGLRenderer) (bufferFlags : BufferFlags)
    (clearColor : Color) (clearDepth : GLfloat) (rects : List Rect) :
    List GLcall × OpenGLRenderer :=
  let colorCalls := if bufferFlags.ColorBuffer then [glClearColor clearColor] else []
  let maskCalls :=
    if bufferFlags.DepthBuffer ∧ ¬ r.m_glstate.depthWrite then [glDepthMask true] else []
  let depthCalls := if bufferFlags.DepthBuffer then [glClearDepth clearDepth] else []
  let glstate :=
    if bufferFlags.DepthBuffer ∧ ¬ r.m_glstate.depthWrite then
      { r.m_glstate with depthWrite := true }
    else r.m_glstate
  let buffers := glClear bufferFlags.ColorBuffer bufferFlags.DepthBuffer
  let clearCalls :=
    if rects.length ≠ 0 then
      [glEnable GL_SCISSOR_TEST]
      ++ (rects.map fun rc =>
            [glScissor rc.left (wrapInt32 (height - rc.bottom)) rc.width rc.height,
             buffers]).flatten
      ++ [glDisable GL_SCISSOR_TEST]
    else [buffers]
  (colorCalls ++ maskCalls ++ depthCalls ++ clearCalls, { r with m_glstate := glstate })

/-- The function `OpenGLRenderer::SetAntialiasing` (lines 524-554). -/
def OpenGLRenderer.SetAntialiasing (cfg : VideoConfig) (r : OpenGLRenderer) (enable : Bool) :
    List GLcall × OpenGLRenderer :=
  if r.m_MSAALevel ≤ 0 then ([], r)
  else if enable ∧ ¬ cfg.antialiasing then ([], r)
  else if enable = r.m_hasMSAA then ([], r)
  else
    let cleared : List GLcall × OpenGLRenderer :=
      if r.m_glstate.colorKey then
        let colorkey := r.m_state.colorKey
        let flushed :=
          OpenGLRenderer.flushState cfg { r with m_state := { r.m_state with colorKey := false } }
        (flushed.1, { flushed.2 with m_state := { flushed.2.m_state with colorKey := colorkey } })
      else ([], r)
    (cleared.1 ++ [if enable then glEnable GL_MULTISAMPLE else glDisable GL_MULTISAMPLE],
     { cleared.2 with m_hasMSAA := enable })

/-- The function `glm::clamp` on floats. -/
def clamp (x minVal maxVal : GLfloat) : GLfloat := min (max x minVal) maxVal

/-- The function `OpenGLRenderer::setMaxAnisotropy` (lines 565-577). -/
def OpenGLRenderer.setMaxAnisotropy (r : OpenGLRenderer) (value : GLfloat) :
    List GLcall × OpenGLRenderer :=
  let maxAnisotropy := clamp value 1 r.m_maximumSupportedAnisotropy
  if r.m_maximumAnisotropy = maxAnisotropy then ([], r)
  else (r.textures.map updateMaxAnisotropy, { r with m_maximumAnisotropy := maxAnisotropy })

/-- What the renderer learns from the build and from the driver: the build variant (true for
Native Client and Emscripten, where the source fixes the extension flags by `#define`), the
extension flags, and the answers to the `glGetIntegerv` and `glGetFloatv` queries, which are
not recorded in the trace.  `GL_ARB_buffer_storage` tells whether the GLEW header defines
that macro, which the `#ifdef` of `createVertexBufferImpl` tests. -/
structure GLContext where
  emscripten : Bool
  GLEW_ARB_texture_non_power_of_two : Bool
  GLEW_ARB_draw_elements_base_vertex : Bool
  GLEW_ARB_map_buffer_range : Bool
  GL_ARB_buffer_storage : Bool
  GLEW_ARB_buffer_storage : Bool
  GLEW_VERSION_2_0 : Bool
  GLEW_VERSION_3_0 : Bool
  GLEW_EXT_texture_filter_anisotropic : Bool
  GL_MAX_TEXTURE_SIZE : Int
  GL_SAMPLE_BUFFERS : Int
  GL_MAX_TEXTURE_UNITS : Int
  GL_MAX_TEXTURE_MAX_ANISOTROPY_EXT : GLfloat

/-- The function `OpenGLRenderer::reinit` (lines 217-314), without its log output and without
`switchVertexArray` and `onRendererInit`, which are not among the sources.  `newStage i` is
the stage that the constructor `GLTextureStage(this, i)` builds.  Modelled from the spec:
the default arguments of `Clear`, declared in graphics/Renderer.h, are taken to be
`Color::none`, `1.f` and no rectangle, so `Clear(ColorBuffer | DepthBuffer)` clears the whole
buffers and does not read the window height. -/
def OpenGLRenderer.reinit (ctx : GLContext) (cfg : VideoConfig)
    (newStage : Nat → GLTextureStage) (r : OpenGLRenderer) : List GLcall × OpenGLRenderer :=
  let npot := ctx.GLEW_ARB_texture_non_power_of_two || ctx.GLEW_VERSION_2_0
  let hasTextureNPOT :=
    if ¬ npot then npot
    else if ¬ ctx.GLEW_VERSION_3_0 then
      if ctx.GL_MAX_TEXTURE_SIZE < 8192 then false else npot
    else npot
  let useVertexArrays := !ctx.emscripten
  let level : Int := if ctx.GL_SAMPLE_BUFFERS ≠ 0 then ctx.GL_SAMPLE_BUFFERS else 0
  let msaaCalls := if level > 0 then [glDisable GL_MULTISAMPLE] else []
  let glstate : RenderState :=
    { cull := CullNone, fog := false, colorKey := false, depthTest := false,
      depthWrite := true, depthOffset := 0, blendSrc := BlendOne, blendDst := BlendZero }
  let stateCalls :=
    [glFogi GL_FOG_MODE GL_LINEAR,
     glAlphaFunc (arxToGlPixelCompareFunc PixelCompareFunc.CmpNotEqual) 0,
     glEnable GL_DEPTH_TEST, glDepthFunc GL_ALWAYS,
     glEnable GL_POLYGON_OFFSET_FILL,
     glEnable GL_BLEND,
     glPixelStorei GL_UNPACK_ALIGNMENT 1, glPixelStorei GL_PACK_ALIGNMENT 1]
  let r1 : OpenGLRenderer :=
    { r with
      m_hasTextureNPOT := hasTextureNPOT
      useVertexArrays := useVertexArrays
      useVBOs := useVertexArrays
      m_MSAALevel := level
      m_hasMSAA := false
      m_glcull := GL_BACK
      m_glstate := glstate
      m_TextureStages := (List.range ctx.GL_MAX_TEXTURE_UNITS.toNat).map newStage }
  let cleared :=
    OpenGLRenderer.Clear 0 r1 { ColorBuffer := true, DepthBuffer := true } Color.none 1 []
  let r2 : OpenGLRenderer :=
    { cleared.2 with currentTransform := GLTransformMode.GL_UnsetTransform }
  let aniso : List GLcall × OpenGLRenderer :=
    if ctx.GLEW_EXT_texture_filter_anisotropic then
      OpenGLRenderer.setMaxAnisotropy
        { r2 with m_maximumSupportedAnisotropy := ctx.GL_MAX_TEXTURE_MAX_ANISOTROPY_EXT }
        (GLfloat.ofInt cfg.maxAnisotropicFiltering)
    else ([], r2)
  (msaaCalls ++ stateCalls ++ cleared.1 ++ aniso.1, aniso.2)

/-- The function `OpenGLRenderer::enableTransform` (lines 335-348). -/
def OpenGLRenderer.enableTransform (r : OpenGLRenderer) : List GLcall × OpenGLRenderer :=
  if r.currentTransform = GLTransformMode.GL_ModelViewProjectionTransform then ([], r)
  else
    ([glMatrixMode GL_MODELVIEW, glLoadMatrixf r.view,
      glMatrixMode GL_PROJECTION, glLoadMatrixf r.projection],
     { r with currentTransform := GLTransformMode.GL_ModelViewProjectionTransform })

/-- The function `OpenGLRenderer::disableTransform` (lines 350-370).  In `2.f / width()`,
`-2.f / height()`, `.5f - left` and `.5f - top` the `int` operand is converted to `float` and
the operation is done in `float`: a viewport of width or height zero gives an infinity. -/
def OpenGLRenderer.disableTransform (r : OpenGLRenderer) : List GLcall × OpenGLRenderer :=
  if r.currentTransform = GLTransformMode.GL_NoTransform then ([], r)
  else
    ([glMatrixMode GL_MODELVIEW, glLoadIdentity,
      glMatrixMode GL_PROJECTION, glLoadIdentity,
      glTranslatef (FloatValue.finite (-1)) (FloatValue.finite 1) (FloatValue.finite 0),
      glScalef (FloatValue.div 2 (GLfloat.ofInt r.viewport.width))
        (FloatValue.div (-2) (GLfloat.ofInt r.viewport.height)) (FloatValue.finite 1),
      glTranslatef (FloatValue.sub (1 / 2) (GLfloat.ofInt r.viewport.left))
        (FloatValue.sub (1 / 2) (GLfloat.ofInt r.viewport.top)) (FloatValue.finite 0)],
     { r with currentTransform := GLTransformMode.GL_NoTransform })

/-- The function `OpenGLRenderer::SetViewMatrix` (lines 372-383). -/
def OpenGLRenderer.SetViewMatrix (r : OpenGLRenderer) (matView : Mat4) : OpenGLRenderer :=
  if r.view = matView then r
  else
    { r with
      currentTransform :=
        if r.currentTransform = GLTransformMode.GL_ModelViewProjectionTransform then
          GLTransformMode.GL_UnsetTransform
        else r.currentTransform
      view := matView }

/-- The function `OpenGLRenderer::SetProjectionMatrix` (lines 389-400). -/
def OpenGLRenderer.SetProjectionMatrix (r : OpenGLRenderer) (matProj : Mat4) : OpenGLRenderer :=
  if r.projection = matProj then r
  else
    { r with
      currentTransform :=
        if r.currentTransform = GLTransformMode.GL_ModelViewProjectionTransform then
          GLTransformMode.GL_UnsetTransform
        else r.currentTransform
      projection := matProj }

/-- The function `OpenGLRenderer::SetViewport` (lines 439-456); `height` is the window
height, a 32 bit `int`, and `height - viewport.bottom` is computed in 32 bit `int`. -/
def OpenGLRenderer.SetViewport (height : Int) (r : OpenGLRenderer) (_viewport : Rect) :
    List GLcall × OpenGLRenderer :=
  if _viewport = r.viewport then ([], r)
  else
    ([glViewport _viewport.left (wrapInt32 (height - _viewport.bottom)) _viewport.width
        _viewport.height],
     { r with
       viewport := _viewport
       currentTransform :=
         if r.currentTransform = GLTransformMode.GL_NoTransform then
           GLTransformMode.GL_UnsetTransform
         else r.currentTransform })

/-- The renderer states that can arise once `reinit` has run: the state `reinit` leaves,
from any prior renderer value, and every state that one of the state-writing members or a
state setter produces from such a state.  Modelled from the spec: the state setters
(graphics/Renderer.h is not among the sources) only mutate the requested snapshot, so a
setter call is the step that replaces `m_state` and keeps every other member. -/
inductive Reachable : OpenGLRenderer → Prop
  | reinit (ctx : GLContext) (cfg : VideoConfig) (newStage : Nat → GLTextureStage)
      (r0 : OpenGLRenderer) : Reachable (OpenGLRenderer.reinit ctx cfg newStage r0).2
  | setter (r : OpenGLRenderer) (s : RenderState) :
      Reachable r → Reachable { r with m_state := s }
  | flushState (cfg : VideoConfig) (r : OpenGLRenderer) :
      Reachable r → Reachable (OpenGLRenderer.flushState cfg r).2
  | Clear (height : Int) (r : OpenGLRenderer) (bufferFlags : BufferFlags) (clearColor : Color)
      (clearDepth : GLfloat) (rects : List Rect) :
      Reachable r →
      Reachable (OpenGLRenderer.Clear height r bufferFlags clearColor clearDepth rects).2
  | SetAntialiasing (cfg : VideoConfig) (r : OpenGLRenderer) (enable : Bool) :
      Reachable r → Reachable (OpenGLRenderer.SetAntialiasing cfg r enable).2
  | setMaxAnisotropy (r : OpenGLRenderer) (value : GLfloat) :
      Reachable r → Reachable (OpenGLRenderer.setMaxAnisotropy r value).2
  | enableTransform (r : OpenGLRenderer) :
      Reachable r → Reachable (OpenGLRenderer.enableTransform r).2
  | disableTransform (r : OpenGLRenderer) :
      Reachable r → Reachable (OpenGLRenderer.disableTransform r).2
  | SetViewMatrix (r : OpenGLRenderer) (matView : Mat4) :
      Reachable r → Reachable (OpenGLRenderer.SetViewMatrix r matView)
  | SetProjectionMatrix (r : OpenGLRenderer) (matProj : Mat4) :
      Reachable r → Reachable (OpenGLRenderer.SetProjectionMatrix r matProj)
  | SetViewport (height : Int) (r : OpenGLRenderer) (_viewport : Rect) :
      Reachable r → Reachable (OpenGLRenderer.SetViewport height r _viewport).2

/-! ## Scissor -/

/-- Modelled from the spec: `Rect::isValid` (math/Rectangle.h is not among the sources): a
rectangle is valid when it has a positive width and a positive height. -/
def Rect.isValid (r : Rect) : Bool := decide (r.left < r.right) && decide (r.top < r.bottom)

/-- The function `OpenGLRenderer::SetScissor` (lines 462-471); `height` is the window height,
a 32 bit `int`, and `height - rect.bottom` is computed in 32 bit `int`.  The renderer is
returned as it was: the function writes no member. -/
def OpenGLRenderer.SetScissor (height : Int) (r : OpenGLRenderer) (rect : Rect) :
    List GLcall × OpenGLRenderer :=
  if rect.isValid then
    ([glEnable GL_SCISSOR_TEST,
      glScissor rect.left (wrapInt32 (height - rect.bottom)) rect.width rect.height], r)
  else ([glDisable GL_SCISSOR_TEST], r)

/-! ## Vertex buffer creation -/

/-- The usage patterns `Renderer::BufferUsage`. -/
inductive BufferUsage
  | Static | Dynamic | Stream
  deriving DecidableEq, Repr

/-- The vertex buffer that a creation function constructs: the class of the object and the
constructor arguments after the renderer (capacity, usage and, for the fenced buffer, the
number of buffers). -/
inductive VertexBuffer
  | GLNoVertexBuffer (capacity : Nat)
  | GLVertexBuffer (capacity : Nat) (usage : BufferUsage)
  | GLMapRangeVertexBuffer (capacity : Nat) (usage : BufferUsage)
  | GLPersistentOrphanVertexBuffer (capacity : Nat) (usage : BufferUsage)
  | GLPersistentFenceVertexBuffer (capacity : Nat) (usage : BufferUsage) (multiplier : Nat)
  | GLPersistentUnsynchronizedVertexBuffer (capacity : Nat) (usage : BufferUsage)
  deriving DecidableEq, Repr

/-- What a call of `createVertexBufferImpl` yields: the buffer returned, the value of the
static `warned` afterwards, the settings named in the warnings logged, in order, and the
number of nested calls of `createVertexBufferImpl` that were made. -/
structure Created where
  buffer : VertexBuffer
  warned : Bool
  log : List String
  resolves : Nat
  deriving DecidableEq, Repr

/-- Lines 585-626 of `createVertexBufferImpl`: the tests that come before the `map` test.
The result is the buffer of the `return` that was taken, if one was, and the value of
`matched` at that point. -/
def createVertexBufferImpl.ranged (ctx : GLContext) (capacity : Nat) (usage : BufferUsage)
    (setting : String) : Option VertexBuffer × Bool :=
  if ctx.GLEW_ARB_map_buffer_range then
    if ctx.GL_ARB_buffer_storage ∧ ctx.GLEW_ARB_buffer_storage then
      if (setting = "" ∨ setting = "persistent-orphan") ∧ usage ≠ BufferUsage.Static then
        (some (VertexBuffer.GLPersistentOrphanVertexBuffer capacity usage), false)
      else
        let matched1 : Bool := decide (setting = "" ∨ setting = "persistent-orphan")
        if (setting = "" ∨ setting = "persistent-x3") ∧ usage = BufferUsage.Stream then
          (some (VertexBuffer.GLPersistentFenceVertexBuffer capacity usage 3), matched1)
        else
          let matched2 : Bool := matched1 || decide (setting = "" ∨ setting = "persistent-x3")
          if (setting = "" ∨ setting = "persistent-x2") ∧ usage = BufferUsage.Stream then
            (some (VertexBuffer.GLPersistentFenceVertexBuffer capacity usage 2), matched2)
          else
            let matched3 : Bool :=
              matched2 || decide (setting = "" ∨ setting = "persistent-x2")
            if setting = "persistent-nosync" ∧ usage ≠ BufferUsage.Static then
              (some (VertexBuffer.GLPersistentUnsynchronizedVertexBuffer capacity usage),
               matched3)
            else
              let matched4 : Bool := matched3 || decide (setting = "persistent-nosync")
              if setting = "" ∨ setting = "maprange" ∨ setting = "maprange+subdata" then
                (some (VertexBuffer.GLMapRangeVertexBuffer capacity usage), matched4)
              else (none, matched4)
    else
      if setting = "" ∨ setting = "maprange" ∨ setting = "maprange+subdata" then
        (some (VertexBuffer.GLMapRangeVertexBuffer capacity usage), false)
      else (none, false)
  else (none, false)

/-- The function template `createVertexBufferImpl` with the `setting` parameter (lines
579-638), for one vertex type; `warned` is the value of the static `warned` of that
instantiation.  The nested call passes the empty string. -/
def createVertexBufferImpl (ctx : GLContext) (capacity : Nat) (usage : BufferUsage)
    (setting : String) (warned : Bool) : Created :=
  match createVertexBufferImpl.ranged ctx capacity usage setting with
  | (some buffer, _) => { buffer := buffer, warned := warned, log := [], resolves := 0 }
  | (none, matched) =>
    if h : setting = "" ∨ setting = "map" ∨ setting = "map+subdata" then
      { buffer := VertexBuffer.GLVertexBuffer capacity usage, warned := warned, log := [],
        resolves := 0 }
    else
      let warn : Bool := !matched && !warned
      let inner := createVertexBufferImpl ctx capacity usage "" (warned || warn)
      { buffer := inner.buffer
        warned := inner.warned
        log := (if warn then [setting] else []) ++ inner.log
        resolves := inner.resolves + 1 }
termination_by (if setting = "" then 0 else 1)
decreasing_by
  have hne : ¬ setting = "" := fun e => h (Or.inl e)
  simp [hne]

/-- The statics `warned` of the three instantiations of `createVertexBufferImpl`, one for
each vertex type. -/
structure WarnedStatics where
  TexturedVertex : Bool
  SMY_VERTEX : Bool
  SMY_VERTEX3 : Bool
  deriving DecidableEq, Repr

/-- The function `OpenGLRenderer::createVertexBufferTL` (lines 648-654), through the overload
of `createVertexBufferImpl` that reads `config.video.bufferUpload` (lines 640-646): the
buffer, the warnings logged and the statics afterwards. -/
def OpenGLRenderer.createVertexBufferTL (ctx : GLContext) (cfg : VideoConfig)
    (r : OpenGLRenderer) (capacity : Nat) (usage : BufferUsage) (w : WarnedStatics) :
    VertexBuffer × List String × WarnedStatics :=
  if r.useVBOs then
    let c := createVertexBufferImpl ctx capacity usage cfg.bufferUpload w.TexturedVertex
    (c.buffer, c.log, { w with TexturedVertex := c.warned })
  else (VertexBuffer.GLNoVertexBuffer capacity, [], w)

/-- The function `OpenGLRenderer::createVertexBuffer` (lines 656-662). -/
def OpenGLRenderer.createVertexBuffer (ctx : GLContext) (cfg : VideoConfig)
    (r : OpenGLRenderer) (capacity : Nat) (usage : BufferUsage) (w : WarnedStatics) :
    VertexBuffer × List String × WarnedStatics :=
  if r.useVBOs then
    let c := createVertexBufferImpl ctx capacity usage cfg.bufferUpload w.SMY_VERTEX
    (c.buffer, c.log, { w with SMY_VERTEX := c.warned })
  else (VertexBuffer.GLNoVertexBuffer capacity, [], w)

/-- The function `OpenGLRenderer::createVertexBuffer3` (lines 664-670). -/
def OpenGLRenderer.createVertexBuffer3 (ctx : GLContext) (cfg : VideoConfig)
    (r : OpenGLRenderer) (capacity : Nat) (usage : BufferUsage) (w : WarnedStatics) :
    VertexBuffer × List String × WarnedStatics :=
  if r.useVBOs then
    let c := createVertexBufferImpl ctx capacity usage cfg.bufferUpload w.SMY_VERTEX3
    (c.buffer, c.log, { w with SMY_VERTEX3 := c.warned })
  else (VertexBuffer.GLNoVertexBuffer capacity, [], w)

/-! ## Vocabulary of the statements -/

/-- The seven fields of the pipeline state, in the order in which `flushState` treats them. -/
inductive StateField
  | cull | fog | colorKey | depthTest | depthWrite | depthOffset | blend
  deriving DecidableEq, Repr

/-- Position of a field in the order of `flushState`. -/
def StateField.rank : StateField → Nat
  | .cull => 0
  | .fog => 1
  | .colorKey => 2
  | .depthTest => 3
  | .depthWrite => 4
  | .depthOffset => 5
  | .blend => 6

/-- The pipeline field that a driver call updates, if it updates one: face culling and the
cull direction belong to `cull`, `GL_FOG` to `fog`, alpha-to-coverage and the alpha test to
`colorKey`, and so on. -/
def GLcall.field : GLcall → Option StateField
  | glEnable GL_CULL_FACE => some .cull
  | glDisable GL_CULL_FACE => some .cull
  | glCullFace _ => some .cull
  | glEnable GL_FOG => some .fog
  | glDisable GL_FOG => some .fog
  | glEnable GL_SAMPLE_ALPHA_TO_COVERAGE => some .colorKey
  | glDisable GL_SAMPLE_ALPHA_TO_COVERAGE => some .colorKey
  | glEnable GL_ALPHA_TEST => some .colorKey
  | glDisable GL_ALPHA_TEST => some .colorKey
  | glDepthFunc _ => some .depthTest
  | glDepthMask _ => some .depthWrite
  | glPolygonOffset _ _ => some .depthOffset
  | glBlendFunc _ _ => some .blend
  | _ => none

/-- Whether a trace entry is a call made by a texture stage. -/
def GLcall.isTextureStage : GLcall → Bool
  | textureStage _ _ => true
  | _ => false

/-- Position of a call in the order of `flushState`: the rank of its field, and 7 for the
calls that follow the pipeline block. -/
def GLcall.rank (c : GLcall) : Nat :=
  match c.field with
  | some F => F.rank
  | none => 7

/-- The calls of a trace that belong to field `F`, in trace order. -/
def callsOf (F : StateField) (l : List GLcall) : List GLcall :=
  l.filter fun c => c.field = some F

/-- Whether two pipeline states hold the same value in field `F`. -/
def RenderState.sameOn (F : StateField) (a b : RenderState) : Prop :=
  match F with
  | .cull => a.cull = b.cull
  | .fog => a.fog = b.fog
  | .colorKey => a.colorKey = b.colorKey
  | .depthTest => a.depthTest = b.depthTest
  | .depthWrite => a.depthWrite = b.depthWrite
  | .depthOffset => a.depthOffset = b.depthOffset
  | .blend => a.blendSrc = b.blendSrc ∧ a.blendDst = b.blendDst

instance (F : StateField) (a b : RenderState) : Decidable (RenderState.sameOn F a b) := by
  cases F <;> simp only [RenderState.sameOn] <;> infer_instance

/-- Two pipeline states differ in field `F` and in no other field. -/
def RenderState.differsExactlyIn (F : StateField) (a b : RenderState) : Prop :=
  ∀ G : StateField, RenderState.sameOn G a b ↔ G ≠ F

/-- The enabled capabilities of the driver after one more call: `glEnable` and `glDisable`
switch their capability, every other call leaves the capabilities alone. -/
def GLcall.applyTo (enabled : GLenum → Bool) : GLcall → GLenum → Bool
  | glEnable cap => fun c => if c = cap then true else enabled c
  | glDisable cap => fun c => if c = cap then false else enabled c
  | _ => enabled

/-- The enabled capabilities of the driver after a sequence of calls. -/
def runCalls (enabled : GLenum → Bool) : List GLcall → GLenum → Bool
  | [] => enabled
  | c :: rest => runCalls (c.applyTo enabled) rest

/-- A pipeline state used in the examples: the state that `reinit` records. -/
def RenderState.initial : RenderState :=
  { cull := CullNone, fog := false, colorKey := false, depthTest := false,
    depthWrite := true, depthOffset := 0, blendSrc := BlendOne, blendDst := BlendZero }

/-- A renderer used in the examples: both snapshots in the state of `reinit`, multisampling
active, two texture stages of which the second is dirty. -/
def OpenGLRenderer.sample : OpenGLRenderer :=
  { m_state := RenderState.initial
    m_glstate := RenderState.initial
    m_glcull := GL_BACK
    m_MSAALevel := 1
    m_hasMSAA := true
    m_hasTextureNPOT := true
    useVertexArrays := true
    useVBOs := true
    maxTextureStage := 1
    m_TextureStages := [{ dirty := false, pending := [] }, { dirty := true, pending := [5] }]
    m_maximumAnisotropy := 1
    m_maximumSupportedAnisotropy := 1
    viewport := { left := 0, top := 0, right := 640, bottom := 480 }
    textures := []
    currentTransform := GLTransformMode.GL_UnsetTransform
    projection := { bits := [] }
    view := { bits := [] } }

/-- A configuration used in the examples: antialiasing and color keying by
alpha-to-coverage both selected. -/
def VideoConfig.sample : VideoConfig :=
  { antialiasing := true, colorkeyAlphaToCoverage := true, maxAnisotropicFiltering := 1,
    bufferUpload := "" }

/-- The block of `flushState` that treats field `F`: its calls for the applied state `gl`,
the requested state `st` and the cached cull direction `g`. -/
def flushField (useA2C : Bool) (gl st : RenderState) (g : GLenum) : StateField → List GLcall
  | .cull => (flushCull gl st g).1
  | .fog => flushFog gl st
  | .colorKey => flushColorKey useA2C gl st
  | .depthTest => flushDepthTest gl st
  | .depthWrite => flushDepthWrite gl st
  | .depthOffset => flushDepthOffset gl st
  | .blend => flushBlend gl st

/-- The sample renderer with color key on in both snapshots: applied without blending,
requested with the factors `(BlendSrcAlpha, BlendInvSrcAlpha)`. -/
def OpenGLRenderer.sampleBlendOn : OpenGLRenderer :=
  { OpenGLRenderer.sample with
    m_glstate := { RenderState.initial with colorKey := true }
    m_state :=
      { RenderState.initial with
        colorKey := true, blendSrc := BlendSrcAlpha, blendDst := BlendInvSrcAlpha } }

/-- The sample renderer with color key on in both snapshots: applied with the factors
`(BlendSrcAlpha, BlendInvSrcAlpha)`, requested without blending. -/
def OpenGLRenderer.sampleBlendOff : OpenGLRenderer :=
  { OpenGLRenderer.sample with
    m_glstate :=
      { RenderState.initial with
        colorKey := true, blendSrc := BlendSrcAlpha, blendDst := BlendInvSrcAlpha }
    m_state := { RenderState.initial with colorKey := true } }

/-- The sample renderer with fog requested. -/
def OpenGLRenderer.sampleFogOn : OpenGLRenderer :=
  { OpenGLRenderer.sample with m_state := { RenderState.initial with fog := true } }

/-- The sample renderer with color key requested. -/
def OpenGLRenderer.sampleColorKeyOn : OpenGLRenderer :=
  { OpenGLRenderer.sample with m_state := { RenderState.initial with colorKey := true } }

/-- A driver in which exactly the capabilities of `caps` are enabled. -/
def driverWith (caps : List GLenum) : GLenum → Bool := fun c => caps.contains c

/-- The face direction that `flushState` passes to `glCullFace` for a requested culling
mode (line 758). -/
def cullDirection (mode : CullingMode) : GLenum :=
  if mode = CullCW then GL_BACK else GL_FRONT

/-- A context used in the examples: a desktop build with four texture units and no
multisample buffer. -/
def GLContext.sample : GLContext :=
  { emscripten := false
    GLEW_ARB_texture_non_power_of_two := true
    GLEW_ARB_draw_elements_base_vertex := true
    GLEW_ARB_map_buffer_range := true
    GL_ARB_buffer_storage := true
    GLEW_ARB_buffer_storage := false
    GLEW_VERSION_2_0 := true
    GLEW_VERSION_3_0 := true
    GLEW_EXT_texture_filter_anisotropic := false
    GL_MAX_TEXTURE_SIZE := 16384
    GL_SAMPLE_BUFFERS := 0
    GL_MAX_TEXTURE_UNITS := 4
    GL_MAX_TEXTURE_MAX_ANISOTROPY_EXT := 16 }

/-- The renderer that `reinit` leaves in the sample context, with clean new stages. -/
def OpenGLRenderer.afterReinit : OpenGLRenderer :=
  (OpenGLRenderer.reinit GLContext.sample VideoConfig.sample
    (fun _ => { dirty := false, pending := [] }) OpenGLRenderer.sample).2

/-- The renderer after `reinit` and a request for clockwise culling. -/
def OpenGLRenderer.afterReinitCullCW : OpenGLRenderer :=
  { OpenGLRenderer.afterReinit with m_state := { RenderState.initial with cull := CullCW } }

/-- The renderer after `reinit`, a request for clockwise culling, a flush, and a request for
counter-clockwise culling. -/
def OpenGLRenderer.afterFlushCullCCW : OpenGLRenderer :=
  { (OpenGLRenderer.afterReinitCullCW.flushState VideoConfig.sample).2 with
    m_state := { RenderState.initial with cull := CullCCW } }

/-- The sample renderer with a depth offset of 3 requested. -/
def OpenGLRenderer.sampleDepthOffset : OpenGLRenderer :=
  { OpenGLRenderer.sample with m_state := { RenderState.initial with depthOffset := 3 } }

/-- Whether a call is a buffer clear, a scissor rectangle, or a switch of the scissor test. -/
def GLcall.isScissorOrClear : GLcall → Bool
  | glClear _ _ => true
  | glScissor _ _ _ _ => true
  | glEnable GL_SCISSOR_TEST => true
  | glDisable GL_SCISSOR_TEST => true
  | _ => false

/-- The strategy names that `createVertexBufferImpl` compares the setting with. -/
def recognisedSettings : List String :=
  ["persistent-orphan", "persistent-x3", "persistent-x2", "persistent-nosync",
   "maprange", "maprange+subdata", "map", "map+subdata"]

/-- The sample renderer with depth write off in both snapshots. -/
def OpenGLRenderer.sampleDepthWriteOff : OpenGLRenderer :=
  { OpenGLRenderer.sample with
    m_glstate := { RenderState.initial with depthWrite := false }
    m_state := { RenderState.initial with depthWrite := false } }

/-- The sample renderer with the view and projection matrices loaded. -/
def OpenGLRenderer.sampleTransformed : OpenGLRenderer :=
  { OpenGLRenderer.sample with
    currentTransform := GLTransformMode.GL_ModelViewProjectionTransform }

/-- A rectangle used in the examples, different from the viewport of the sample renderer. -/
def Rect.sample : Rect := { left := 10, top := 20, right := 330, bottom := 260 }

/-- A matrix used in the examples, different from the matrices of the sample renderer. -/
def Mat4.sample : Mat4 := { bits := [1065353216] }

/-- The sample context with persistent buffer storage supported. -/
def GLContext.samplePersistent : GLContext :=
  { GLContext.sample with GLEW_ARB_buffer_storage := true }

/-- The sample context without range mapping (and so without persistent buffers in use). -/
def GLContext.sampleNoRange : GLContext :=
  { GLContext.sample with GLEW_ARB_map_buffer_range := false }

/-- The statics `warned` before any warning. -/
def WarnedStatics.initial : WarnedStatics :=
  { TexturedVertex := false, SMY_VERTEX := false, SMY_VERTEX3 := false }

/-! ## Runs of the renderer with their driver calls -/

/-- The renderer states that arise once `reinit` has run, each with the driver calls made
from the start of that `reinit` on, while the option `colorkeyAlphaToCoverage` is held at
`a2c`.  Modelled from the spec: a state setter only replaces the requested snapshot
`m_state` and makes no driver call. -/
inductive ReachableWith (a2c : Bool) : OpenGLRenderer → List GLcall → Prop
  | reinit (ctx : GLContext) (cfg : VideoConfig) (newStage : Nat → GLTextureStage)
      (r0 : OpenGLRenderer) :
      ReachableWith a2c (OpenGLRenderer.reinit ctx cfg newStage r0).2
        (OpenGLRenderer.reinit ctx cfg newStage r0).1
  | setter (r : OpenGLRenderer) (t : List GLcall) (s : RenderState) :
      ReachableWith a2c r t → ReachableWith a2c { r with m_state := s } t
  | flushState (cfg : VideoConfig) (r : OpenGLRenderer) (t : List GLcall) :
      cfg.colorkeyAlphaToCoverage = a2c → ReachableWith a2c r t →
      ReachableWith a2c (OpenGLRenderer.flushState cfg r).2
        (t ++ (OpenGLRenderer.flushState cfg r).1)
  | SetAntialiasing (cfg : VideoConfig) (r : OpenGLRenderer) (t : List GLcall)
      (enable : Bool) :
      cfg.colorkeyAlphaToCoverage = a2c → ReachableWith a2c r t →
      ReachableWith a2c (OpenGLRenderer.SetAntialiasing cfg r enable).2
        (t ++ (OpenGLRenderer.SetAntialiasing cfg r enable).1)
  | Clear (height : Int) (r : OpenGLRenderer) (t : List GLcall) (bufferFlags : BufferFlags)
      (clearColor : Color) (clearDepth : GLfloat) (rects : List Rect) :
      ReachableWith a2c r t →
      ReachableWith a2c
        (OpenGLRenderer.Clear height r bufferFlags clearColor clearDepth rects).2
        (t ++ (OpenGLRenderer.Clear height r bufferFlags clearColor clearDepth rects).1)
  | setMaxAnisotropy (r : OpenGLRenderer) (t : List GLcall) (value : GLfloat) :
      ReachableWith a2c r t →
      ReachableWith a2c (OpenGLRenderer.setMaxAnisotropy r value).2
        (t ++ (OpenGLRenderer.setMaxAnisotropy r value).1)
  | enableTransform (r : OpenGLRenderer) (t : List GLcall) :
      ReachableWith a2c r t →
      ReachableWith a2c (OpenGLRenderer.enableTransform r).2
        (t ++ (OpenGLRenderer.enableTransform r).1)
  | disableTransform (r : OpenGLRenderer) (t : List GLcall) :
      ReachableWith a2c r t →
      ReachableWith a2c (OpenGLRenderer.disableTransform r).2
        (t ++ (OpenGLRenderer.disableTransform r).1)
  | SetViewMatrix (r : OpenGLRenderer) (t : List GLcall) (matView : Mat4) :
      ReachableWith a2c r t → ReachableWith a2c (OpenGLRenderer.SetViewMatrix r matView) t
  | SetProjectionMatrix (r : OpenGLRenderer) (t : List GLcall) (matProj : Mat4) :
      ReachableWith a2c r t →
      ReachableWith a2c (OpenGLRenderer.SetProjectionMatrix r matProj) t
  | SetViewport (height : Int) (r : OpenGLRenderer) (t : List GLcall) (_viewport : Rect) :
      ReachableWith a2c r t →
      ReachableWith a2c (OpenGLRenderer.SetViewport height r _viewport).2
        (t ++ (OpenGLRenderer.SetViewport height r _viewport).1)
  | SetScissor (height : Int) (r : OpenGLRenderer) (t : List GLcall) (rect : Rect) :
      ReachableWith a2c r t →
      ReachableWith a2c (OpenGLRenderer.SetScissor height r rect).2
        (t ++ (OpenGLRenderer.SetScissor height r rect).1)

/-- The argument of the last `glCullFace` call of a trace, and `g` when the trace has none. -/
def lastCullFaceFrom (g : GLenum) : List GLcall → GLenum
  | [] => g
  | glCullFace mode :: rest => lastCullFaceFrom mode rest
  | _ :: rest => lastCullFaceFrom g rest

/-! ## Sequences of buffer creations -/

/-- The three vertex types for which the renderer creates buffers. -/
inductive VertexKind
  | TexturedVertex | SMY_VERTEX | SMY_VERTEX3
  deriving DecidableEq, Repr

/-- One buffer creation: the vertex type, which selects among `createVertexBufferTL`,
`createVertexBuffer` and `createVertexBuffer3`, and the two arguments. -/
structure CreateRequest where
  kind : VertexKind
  capacity : Nat
  usage : BufferUsage
  deriving DecidableEq, Repr

/-- The creation function for the vertex type of the request. -/
def OpenGLRenderer.create (ctx : GLContext) (cfg : VideoConfig) (r : OpenGLRenderer)
    (q : CreateRequest) (w : WarnedStatics) : VertexBuffer × List String × WarnedStatics :=
  match q.kind with
  | VertexKind.TexturedVertex => r.createVertexBufferTL ctx cfg q.capacity q.usage w
  | VertexKind.SMY_VERTEX => r.createVertexBuffer ctx cfg q.capacity q.usage w
  | VertexKind.SMY_VERTEX3 => r.createVertexBuffer3 ctx cfg q.capacity q.usage w

/-- A sequence of buffer creations, one after the other: the warnings logged over the whole
sequence, in order, and the statics afterwards. -/
def OpenGLRenderer.createAll (ctx : GLContext) (cfg : VideoConfig) (r : OpenGLRenderer) :
    List CreateRequest → WarnedStatics → List String × WarnedStatics
  | [], w => ([], w)
  | q :: rest, w =>
    ((r.create ctx cfg q w).2.1 ++ (createAll ctx cfg r rest (r.create ctx cfg q w).2.2).1,
     (createAll ctx cfg r rest (r.create ctx cfg q w).2.2).2)

/-- Whether a buffer is one of the persistently mapped kinds. -/
def VertexBuffer.isPersistent : VertexBuffer → Bool
  | GLPersistentOrphanVertexBuffer _ _ => true
  | GLPersistentFenceVertexBuffer _ _ _ => true
  | GLPersistentUnsynchronizedVertexBuffer _ _ => true
  | _ => false

/-- A setting that names a persistent strategy which the usage pattern excludes:
`persistent-x3` and `persistent-x2` need Stream usage, `persistent-orphan` and
`persistent-nosync` exclude Static usage. -/
def incompatibleSetting (setting : String) (usage : BufferUsage) : Prop :=
  ((setting = "persistent-x3" ∨ setting = "persistent-x2") ∧ usage ≠ BufferUsage.Stream)
    ∨ ((setting = "persistent-orphan" ∨ setting = "persistent-nosync")
        ∧ usage = BufferUsage.Static)

/-- A configuration used in the examples, with an unknown buffer upload setting. -/
def VideoConfig.sampleBogus : VideoConfig :=
  { VideoConfig.sample with bufferUpload := "bogus" }

/-! ## Audio unit conversion -/

/-- The time units `TimeUnit` of the audio library. -/
inductive TimeUnit
  | UNIT_MS | UNIT_SAMPLES | UNIT_BYTES
  deriving DecidableEq, Repr

/-- Modelled from the spec: `PCMFormat` (audio/AudioTypes.h is not among the sources): the
samples per second, the bits per sample and the number of channels, each held in an unsigned
word of the width of `size_t`. -/
structure PCMFormat where
  frequency : Nat
  quality : Nat
  channels : Nat
  deriving DecidableEq, Repr

/-- The function `audio::unitsToBytes` (src/audio/AudioGlobal.cpp, lines 71-80) for a
`size_t` of `bits` bits.  The float expression of the `UNIT_MS` case is not modelled:
`floatMs v _format` stands for its value. -/
def unitsToBytes (bits : Nat) (floatMs : Nat → PCMFormat → Nat) (v : Nat)
    (_format : PCMFormat) (unit : TimeUnit) : Nat :=
  match unit with
  | TimeUnit.UNIT_MS => floatMs v _format
  | TimeUnit.UNIT_SAMPLES => (v * _format.channels * (_format.quality >>> 3)) % 2 ^ bits
  | _ => v

/-- The function `audio::bytesToUnits` (src/audio/AudioGlobal.cpp, lines 82-92) for a
`size_t` of `bits` bits; the result is `none` where the source divides by zero.  The float
expression of the `UNIT_MS` case is not modelled: `floatMs v _format` stands for its
value. -/
def bytesToUnits (bits : Nat) (floatMs : Nat → PCMFormat → Nat) (v : Nat)
    (_format : PCMFormat) (unit : TimeUnit) : Option Nat :=
  match unit with
  | TimeUnit.UNIT_MS => some (floatMs v _format)
  | TimeUnit.UNIT_SAMPLES =>
    let divisor :=
      (_format.frequency * _format.channels * (_format.quality >>> 3)) % 2 ^ bits
    if divisor = 0 then none else some (v / divisor)
  | _ => some v

/-- A format used in the examples: 44100 Hz, 16 bits, stereo. -/
def PCMFormat.sample : PCMFormat := { frequency := 44100, quality := 16, channels := 2 }

/-- Whether a call belongs to the cull field or to the color key field. -/
def GLcall.touchesCullOrColorKey (c : GLcall) : Bool :=
  c.field == some StateField.cull || c.field == some StateField.colorKey

/-- The driver agrees with the applied color key: alpha-to-coverage is enabled exactly when
the applied color key is on, multisampling with the option `a2c` is active and the applied
blending is off, and the alpha test exactly when the applied color key is on and
alpha-to-coverage is not in use. -/
def mechanismsMatch (a2c : Bool) (r : OpenGLRenderer) (en : GLenum → Bool) : Prop :=
  en GL_SAMPLE_ALPHA_TO_COVERAGE
      = (r.m_glstate.colorKey && (r.m_hasMSAA && a2c) && !r.m_glstate.isBlendEnabled)
    ∧ en GL_ALPHA_TEST
      = (r.m_glstate.colorKey && !((r.m_hasMSAA && a2c) && !r.m_glstate.isBlendEnabled))

/-- The sample context with one multisample buffer. -/
def GLContext.sampleMSAA : GLContext := { GLContext.sample with GL_SAMPLE_BUFFERS := 1 }

/-- A run used in the examples: `reinit` in the context with a multisample buffer,
`SetAntialiasing(true)`, a request for color key, and a flush.  The first component is the
trace of the driver calls, the second the renderer. -/
def OpenGLRenderer.sampleRunColorKey : List GLcall × OpenGLRenderer :=
  let s1 := OpenGLRenderer.reinit GLContext.sampleMSAA VideoConfig.sample
    (fun _ => { dirty := false, pending := [] }) OpenGLRenderer.sample
  let s2 := s1.2.SetAntialiasing VideoConfig.sample true
  let s3 : OpenGLRenderer :=
    { s2.2 with m_state := { RenderState.initial with colorKey := true } }
  let s4 := s3.flushState VideoConfig.sample
  (s1.1 ++ s2.1 ++ s4.1, s4.2)

/-- A run used in the examples: `reinit` in the sample context, a request for
counter-clockwise culling, and a flush. -/
def OpenGLRenderer.sampleRunCull : List GLcall × OpenGLRenderer :=
  let s1 := OpenGLRenderer.reinit GLContext.sample VideoConfig.sample
    (fun _ => { dirty := false, pending := [] }) OpenGLRenderer.sample
  let s2 : OpenGLRenderer := { s1.2 with m_state := { RenderState.initial with cull := CullCCW } }
  let s3 := s2.flushState VideoConfig.sample
  (s1.1 ++ s3.1, s3.2)

/-- A rectangle used in the examples whose bottom lies so far up that `height - bottom`
leaves the range of a 32 bit `int`: one pixel high, ten wide. -/
def Rect.sampleFar : Rect :=
  { left := 0, top := -2147483648, right := 10, bottom := -2147483647 }

/-! ## Lemmas on the blocks of flushState -/

theorem flushPipeline_eq (cfg : VideoConfig) (r : OpenGLRenderer) :
    flushPipeline cfg r =
      (flushCull r.m_glstate r.m_state r.m_glcull).1
      ++ flushFog r.m_glstate r.m_state
      ++ flushColorKey (r.m_hasMSAA && cfg.colorkeyAlphaToCoverage) r.m_glstate r.m_state
      ++ flushDepthTest r.m_glstate r.m_state
      ++ flushDepthWrite r.m_glstate r.m_state
      ++ flushDepthOffset r.m_glstate r.m_state
      ++ flushBlend r.m_glstate r.m_state := by
  unfold flushPipeline
  split
  · rfl
  · rename_i h
    have h' : r.m_glstate = r.m_state := by simpa using h
    simp [h', flushCull, flushFog, flushColorKey, flushDepthTest, flushDepthWrite,
      flushDepthOffset, flushBlend]

theorem flushState_glstate (cfg : VideoConfig) (r : OpenGLRenderer) :
    (r.flushState cfg).2.m_glstate = r.m_state := by
  by_cases h : r.m_glstate = r.m_state <;> simp [OpenGLRenderer.flushState, h]

theorem applyStagesFrom_clean (i m : Nat) (l : List GLTextureStage) :
    (applyStagesFrom i m (applyStagesFrom i m l).2).1 = [] := by
  induction l generalizing i with
  | nil => simp [applyStagesFrom]
  | cons s rest ih =>
    by_cases h : i ≤ m
    · have hs : ((s.apply i).2.apply i).1 = [] := by
        unfold GLTextureStage.apply
        by_cases hd : s.dirty <;> simp [hd]
      simp [applyStagesFrom, h, hs, ih]
    · simp [applyStagesFrom, h]

theorem flushCull_field (gl st : RenderState) (g : GLenum) :
    ∀ c ∈ (flushCull gl st g).1, c.field = some StateField.cull := by
  simp only [flushCull]
  split_ifs <;> simp [GLcall.field]

theorem flushFog_field (gl st : RenderState) :
    ∀ c ∈ flushFog gl st, c.field = some StateField.fog := by
  simp only [flushFog]
  split_ifs <;> simp [GLcall.field]

theorem flushColorKey_field (useA2C : Bool) (gl st : RenderState) :
    ∀ c ∈ flushColorKey useA2C gl st, c.field = some StateField.colorKey := by
  simp only [flushColorKey]
  split_ifs <;> simp [GLcall.field]

theorem flushDepthTest_field (gl st : RenderState) :
    ∀ c ∈ flushDepthTest gl st, c.field = some StateField.depthTest := by
  simp only [flushDepthTest]
  split_ifs <;> simp [GLcall.field]

theorem flushDepthWrite_field (gl st : RenderState) :
    ∀ c ∈ flushDepthWrite gl st, c.field = some StateField.depthWrite := by
  simp only [flushDepthWrite]
  split_ifs <;> simp [GLcall.field]

theorem flushDepthOffset_field (gl st : RenderState) :
    ∀ c ∈ flushDepthOffset gl st, c.field = some StateField.depthOffset := by
  simp only [flushDepthOffset]
  split_ifs <;> simp [GLcall.field]

theorem flushBlend_field (gl st : RenderState) :
    ∀ c ∈ flushBlend gl st, c.field = some StateField.blend := by
  simp only [flushBlend]
  split_ifs <;> simp [GLcall.field]

theorem applyStagesFrom_isTextureStage (i m : Nat) (l : List GLTextureStage) :
    ∀ c ∈ (applyStagesFrom i m l).1, c.isTextureStage = true := by
  induction l generalizing i with
  | nil => simp [applyStagesFrom]
  | cons s rest ih =>
    intro c hc
    by_cases h : i ≤ m
    · simp only [applyStagesFrom, h, if_true, List.mem_append] at hc
      rcases hc with hc | hc
      · unfold GLTextureStage.apply at hc
        split_ifs at hc
        · simp only [List.mem_map] at hc
          obtain ⟨op, _, rfl⟩ := hc
          rfl
        · simp at hc
      · exact ih (i + 1) c hc
    · simp [applyStagesFrom, h] at hc

theorem field_of_isTextureStage (c : GLcall) (h : c.isTextureStage = true) : c.field = none := by
  cases c <;> simp [GLcall.isTextureStage] at h
  rfl

theorem callsOf_append (F : StateField) (l l' : List GLcall) :
    callsOf F (l ++ l') = callsOf F l ++ callsOf F l' := by
  simp [callsOf]

theorem callsOf_of_field (F G : StateField) (l : List GLcall)
    (h : ∀ c ∈ l, c.field = some G) : callsOf F l = if F = G then l else [] := by
  unfold callsOf
  split_ifs with hFG
  · subst hFG
    exact List.filter_eq_self.2 fun c hc => by simp [h c hc]
  · refine List.filter_eq_nil_iff.2 fun c hc => ?_
    have hne : ¬ G = F := fun e => hFG e.symm
    simp [h c hc, hne]

theorem callsOf_of_isTextureStage (F : StateField) (l : List GLcall)
    (h : ∀ c ∈ l, c.isTextureStage = true) : callsOf F l = [] := by
  unfold callsOf
  refine List.filter_eq_nil_iff.2 fun c hc => ?_
  simp [field_of_isTextureStage c (h c hc)]

theorem callsOf_flushState (cfg : VideoConfig) (r : OpenGLRenderer) (F : StateField) :
    callsOf F (r.flushState cfg).1 =
      flushField (r.m_hasMSAA && cfg.colorkeyAlphaToCoverage) r.m_glstate r.m_state
        r.m_glcull F := by
  show callsOf F (flushPipeline cfg r ++ _) = _
  rw [flushPipeline_eq]
  simp only [callsOf_append,
    callsOf_of_field F _ _ (flushCull_field r.m_glstate r.m_state r.m_glcull),
    callsOf_of_field F _ _ (flushFog_field r.m_glstate r.m_state),
    callsOf_of_field F _ _
      (flushColorKey_field (r.m_hasMSAA && cfg.colorkeyAlphaToCoverage) r.m_glstate r.m_state),
    callsOf_of_field F _ _ (flushDepthTest_field r.m_glstate r.m_state),
    callsOf_of_field F _ _ (flushDepthWrite_field r.m_glstate r.m_state),
    callsOf_of_field F _ _ (flushDepthOffset_field r.m_glstate r.m_state),
    callsOf_of_field F _ _ (flushBlend_field r.m_glstate r.m_state),
    callsOf_of_isTextureStage F _
      (applyStagesFrom_isTextureStage 0 r.maxTextureStage r.m_TextureStages)]
  cases F <;> simp [flushField]

theorem flushField_same (useA2C : Bool) (gl st : RenderState) (g : GLenum) (F : StateField)
    (h : RenderState.sameOn F gl st)
    (hck : ¬ (F = StateField.colorKey ∧ useA2C = true ∧ st.colorKey = true
      ∧ gl.isBlendEnabled ≠ st.isBlendEnabled)) :
    flushField useA2C gl st g F = [] := by
  cases F <;> simp only [RenderState.sameOn] at h
  · simp [flushField, flushCull, h]
  · simp [flushField, flushFog, h]
  · simp only [true_and] at hck
    simp only [flushField, flushColorKey]
    rw [if_neg]
    rintro (h1 | h2)
    · exact h1 h
    · exact hck ⟨h2.1, h2.2.1, h2.2.2⟩
  · simp [flushField, flushDepthTest, h]
  · simp [flushField, flushDepthWrite, h]
  · simp [flushField, flushDepthOffset, h]
  · simp [flushField, flushBlend, h.1, h.2]

theorem mem_flushState (cfg : VideoConfig) (r : OpenGLRenderer) (c : GLcall)
    (hc : c ∈ (r.flushState cfg).1) :
    c.isTextureStage = true ∨ ∃ F : StateField, c.field = some F
      ∧ c ∈ flushField (r.m_hasMSAA && cfg.colorkeyAlphaToCoverage) r.m_glstate r.m_state
          r.m_glcull F := by
  have hc' : c ∈ flushPipeline cfg r
      ++ (applyStagesFrom 0 r.maxTextureStage r.m_TextureStages).1 := hc
  rw [flushPipeline_eq] at hc'
  simp only [List.mem_append] at hc'
  rcases hc' with ((((((h | h) | h) | h) | h) | h) | h) | h
  · exact Or.inr ⟨.cull, flushCull_field _ _ _ c h, h⟩
  · exact Or.inr ⟨.fog, flushFog_field _ _ c h, h⟩
  · exact Or.inr ⟨.colorKey, flushColorKey_field _ _ _ c h, h⟩
  · exact Or.inr ⟨.depthTest, flushDepthTest_field _ _ c h, h⟩
  · exact Or.inr ⟨.depthWrite, flushDepthWrite_field _ _ c h, h⟩
  · exact Or.inr ⟨.depthOffset, flushDepthOffset_field _ _ c h, h⟩
  · exact Or.inr ⟨.blend, flushBlend_field _ _ c h, h⟩
  · exact Or.inl (applyStagesFrom_isTextureStage _ _ _ c h)

theorem rank_chain (n m : Nat) (l l' : List GLcall)
    (h : List.Pairwise (fun a b : GLcall => a.rank ≤ b.rank) l ∧ ∀ c ∈ l, c.rank ≤ n)
    (h' : ∀ c ∈ l', c.rank = m) (hnm : n ≤ m) :
    List.Pairwise (fun a b : GLcall => a.rank ≤ b.rank) (l ++ l')
      ∧ ∀ c ∈ l ++ l', c.rank ≤ m := by
  constructor
  · rw [List.pairwise_append]
    refine ⟨h.1, ?_, ?_⟩
    · induction l' with
      | nil => exact List.Pairwise.nil
      | cons a t ih =>
        refine List.Pairwise.cons ?_ (ih fun c hc => h' c (List.mem_cons_of_mem _ hc))
        intro b hb
        rw [h' a (List.mem_cons_self _ _), h' b (List.mem_cons_of_mem _ hb)]
    · intro a ha b hb
      rw [h' b hb]
      exact le_trans (h.2 a ha) hnm
  · intro c hc
    rcases List.mem_append.1 hc with hc | hc
    · exact le_trans (h.2 c hc) hnm
    · exact le_of_eq (h' c hc)

theorem runCalls_congr (en en' : GLenum → Bool) (cap : GLenum) (l : List GLcall)
    (h : en cap = en' cap) : runCalls en l cap = runCalls en' l cap := by
  induction l generalizing en en' with
  | nil => exact h
  | cons c rest ih =>
    apply ih
    cases c <;> simp [GLcall.applyTo, h]

theorem applyTo_other_field (en : GLenum → Bool) (c : GLcall) (cap : GLenum)
    (hcap : cap = GL_SAMPLE_ALPHA_TO_COVERAGE ∨ cap = GL_ALPHA_TEST)
    (hc : c.field ≠ some StateField.colorKey) : c.applyTo en cap = en cap := by
  cases c with
  | glEnable x =>
    rcases hcap with rfl | rfl <;> cases x <;> simp [GLcall.applyTo, GLcall.field] at hc ⊢
  | glDisable x =>
    rcases hcap with rfl | rfl <;> cases x <;> simp [GLcall.applyTo, GLcall.field] at hc ⊢
  | _ => rfl

theorem runCalls_callsOf_colorKey (en : GLenum → Bool) (l : List GLcall) (cap : GLenum)
    (hcap : cap = GL_SAMPLE_ALPHA_TO_COVERAGE ∨ cap = GL_ALPHA_TEST) :
    runCalls en l cap = runCalls en (callsOf StateField.colorKey l) cap := by
  induction l generalizing en with
  | nil => rfl
  | cons c rest ih =>
    by_cases hc : c.field = some StateField.colorKey
    · have : callsOf StateField.colorKey (c :: rest)
          = c :: callsOf StateField.colorKey rest := by
        simp [callsOf, hc]
      rw [this]
      exact ih _
    · have : callsOf StateField.colorKey (c :: rest) = callsOf StateField.colorKey rest := by
        simp [callsOf, hc]
      rw [this]
      show runCalls (c.applyTo en) rest cap = _
      rw [ih]
      exact runCalls_congr _ _ _ _ (applyTo_other_field en c cap hcap hc)

theorem callsOf_take_isPrefix (F : StateField) (k : Nat) (l : List GLcall) :
    callsOf F (l.take k) <+: callsOf F l :=
  List.IsPrefix.filter _ (List.take_prefix k l)

theorem isPrefix_pair (p : List GLcall) (a b : GLcall) (h : p <+: [a, b]) :
    p = [] ∨ p = [a] ∨ p = [a, b] := by
  rcases p with _ | ⟨x, _ | ⟨y, _ | ⟨z, t⟩⟩⟩
  · exact Or.inl rfl
  · have := List.cons_prefix_cons.1 h
    exact Or.inr (Or.inl (by rw [this.1]))
  · have h1 := List.cons_prefix_cons.1 h
    have h2 := List.cons_prefix_cons.1 h1.2
    exact Or.inr (Or.inr (by rw [h1.1, h2.1]))
  · have h1 := List.cons_prefix_cons.1 h
    have h2 := List.cons_prefix_cons.1 h1.2
    have h3 := h2.2
    simp at h3

theorem colorKey_swap_calls (cfg : VideoConfig) (r : OpenGLRenderer)
    (hmsaa : r.m_hasMSAA = true) (ha2c : cfg.colorkeyAlphaToCoverage = true)
    (hgl : r.m_glstate.colorKey = true) (hst : r.m_state.colorKey = true)
    (htog : r.m_glstate.isBlendEnabled ≠ r.m_state.isBlendEnabled) :
    callsOf StateField.colorKey (r.flushState cfg).1 =
      if r.m_state.isBlendEnabled then
        [glDisable GL_SAMPLE_ALPHA_TO_COVERAGE, glEnable GL_ALPHA_TEST]
      else [glDisable GL_ALPHA_TEST, glEnable GL_SAMPLE_ALPHA_TO_COVERAGE] := by
  rw [callsOf_flushState]
  simp only [flushField, flushColorKey, hgl, hst, hmsaa, ha2c]
  revert htog
  cases r.m_state.isBlendEnabled <;> cases r.m_glstate.isBlendEnabled <;> simp

/-- The cached cull direction agrees with the applied culling mode. -/
theorem cull_cache_of_reachable (r : OpenGLRenderer) (h : Reachable r) :
    r.m_glstate.cull ≠ CullNone → r.m_glcull = cullDirection r.m_glstate.cull := by
  have hflush : ∀ (cfg : VideoConfig) (q : OpenGLRenderer),
      (q.m_glstate.cull ≠ CullNone → q.m_glcull = cullDirection q.m_glstate.cull) →
      ((q.flushState cfg).2.m_glstate.cull ≠ CullNone →
        (q.flushState cfg).2.m_glcull = cullDirection (q.flushState cfg).2.m_glstate.cull) := by
    intro cfg q hq
    by_cases hne : q.m_glstate = q.m_state
    · simpa [OpenGLRenderer.flushState, hne] using hq
    · simp only [OpenGLRenderer.flushState, ne_eq, hne, not_false_eq_true, if_true]
      intro hst
      simp only [flushCull, cullDirection]
      by_cases hc : q.m_glstate.cull = q.m_state.cull
      · simp only [hc, ne_eq, not_true_eq_false, if_false]
        rw [← hc] at hst ⊢
        exact hq hst
      · simp only [ne_eq, hc, not_false_eq_true, if_true, hst, if_false]
        split_ifs <;> simp_all
  induction h with
  | reinit ctx cfg newStage r0 =>
    intro hne
    exfalso
    apply hne
    simp only [OpenGLRenderer.reinit, OpenGLRenderer.Clear, OpenGLRenderer.setMaxAnisotropy]
    split_ifs <;> simp
  | setter r s _ ih => exact ih
  | flushState cfg r _ ih => exact hflush cfg r ih
  | Clear height r bufferFlags clearColor clearDepth rects _ ih =>
    simp only [OpenGLRenderer.Clear]
    split_ifs <;> exact ih
  | SetAntialiasing cfg r enable _ ih =>
    simp only [OpenGLRenderer.SetAntialiasing]
    split_ifs <;>
      first
      | exact ih
      | exact hflush cfg { r with m_state := { r.m_state with colorKey := false } } ih
  | setMaxAnisotropy r value _ ih =>
    simp only [OpenGLRenderer.setMaxAnisotropy]
    split_ifs <;> exact ih
  | enableTransform r _ ih =>
    simp only [OpenGLRenderer.enableTransform]
    split_ifs <;> exact ih
  | disableTransform r _ ih =>
    simp only [OpenGLRenderer.disableTransform]
    split_ifs <;> exact ih
  | SetViewMatrix r matView _ ih =>
    simp only [OpenGLRenderer.SetViewMatrix]
    split_ifs <;> exact ih
  | SetProjectionMatrix r matProj _ ih =>
    simp only [OpenGLRenderer.SetProjectionMatrix]
    split_ifs <;> exact ih
  | SetViewport height r _viewport _ ih =>
    simp only [OpenGLRenderer.SetViewport]
    split_ifs <;> exact ih

theorem GLfloat.ofInt_neg (d : Int) : GLfloat.ofInt (-d) = -GLfloat.ofInt d := by
  unfold GLfloat.ofInt
  rw [Int.natAbs_neg]
  rcases lt_trichotomy d 0 with h | h | h
  · have h' : ¬ (-d < 0) := by omega
    simp [h, h']
  · subst h
    simp [GLfloat.roundNat]
  · have h' : -d < 0 := by omega
    have h'' : ¬ d < 0 := by omega
    simp [h', h'']

theorem GLfloat.ofInt_exact (d : Int) (h : d.natAbs < 2 ^ 24) : GLfloat.ofInt d = (d : Rat) := by
  unfold GLfloat.ofInt GLfloat.roundNat
  rw [if_pos h]
  have hcast : ((d.natAbs : Nat) : Rat) = (((d.natAbs : Nat) : Int) : Rat) :=
    (Int.cast_natCast _).symm
  by_cases hd : d < 0
  · rw [if_pos hd, hcast]
    have : (d.natAbs : Int) = -d := by omega
    rw [this]
    simp
  · rw [if_neg hd, hcast]
    have : (d.natAbs : Int) = d := by omega
    rw [this]

/-! ## The claims -/

/-- C1 (idempotence of flush): for every renderer state and configuration, a second
`flushState` that directly follows a first one, with no setter call in between, emits no
driver call at all: no pipeline call, and no texture stage call since the first flush left
the stages clean. -/
theorem flushState_twice_emits_nothing (cfg : VideoConfig) (r : OpenGLRenderer) :
    ((r.flushState cfg).2.flushState cfg).1 = [] := by
  have h1 : flushPipeline cfg (r.flushState cfg).2 = [] := by
    have hg := flushState_glstate cfg r
    have hs : (r.flushState cfg).2.m_state = r.m_state := rfl
    simp [flushPipeline, hg, hs]
  have h2 : (applyStagesFrom 0 (r.flushState cfg).2.maxTextureStage
      (r.flushState cfg).2.m_TextureStages).1 = [] :=
    applyStagesFrom_clean 0 r.maxTextureStage r.m_TextureStages
  show flushPipeline cfg (r.flushState cfg).2 ++ _ = []
  rw [h1, h2]; rfl

/-- C3 (applied := requested): for every renderer state, after `flushState` the applied
snapshot `m_glstate` equals the requested snapshot `m_state`, and the requested snapshot is
the one from before the call. -/
theorem flushState_applied_eq_requested (cfg : VideoConfig) (r : OpenGLRenderer) :
    (r.flushState cfg).2.m_glstate = (r.flushState cfg).2.m_state
      ∧ (r.flushState cfg).2.m_state = r.m_state :=
  ⟨flushState_glstate cfg r, rfl⟩

/-- C2 (minimality of flush), as stated, fails: on the sample renderer with multisampling and
the alpha-to-coverage option active and color key on, a request that differs from the applied
state in the blend factors alone makes `flushState` emit calls that do not belong to the
blend field (the disable of alpha-to-coverage and the enable of the alpha test). -/
theorem flushState_minimality_fails_for_blend :
    RenderState.differsExactlyIn StateField.blend
        OpenGLRenderer.sampleBlendOn.m_glstate OpenGLRenderer.sampleBlendOn.m_state
      ∧ ¬ (∀ c ∈ (OpenGLRenderer.sampleBlendOn.flushState VideoConfig.sample).1,
            c.isTextureStage = true ∨ c.field = some StateField.blend) := by
  constructor
  · intro G
    cases G <;> decide
  · intro h
    have h1 := h (glDisable GL_SAMPLE_ALPHA_TO_COVERAGE) (by decide)
    revert h1
    decide

/-- C2 (minimality of flush), amended: when the requested state differs from the applied one
in exactly one field `F`, every call that `flushState` emits is a texture stage call or
belongs to `F`, with one exception: when `F` is the blend factors, multisampling and the
alpha-to-coverage option are both active, color key is on and the change switches between
blending and no blending, the calls of the color key block that swap alpha-to-coverage and
alpha test are emitted as well. -/
theorem flushState_minimal (cfg : VideoConfig) (r : OpenGLRenderer) (F : StateField)
    (h : RenderState.differsExactlyIn F r.m_glstate r.m_state) :
    ∀ c ∈ (r.flushState cfg).1,
      c.isTextureStage = true ∨ c.field = some F
        ∨ (F = StateField.blend ∧ c.field = some StateField.colorKey
            ∧ (r.m_hasMSAA && cfg.colorkeyAlphaToCoverage) = true
            ∧ r.m_state.colorKey = true
            ∧ r.m_glstate.isBlendEnabled ≠ r.m_state.isBlendEnabled) := by
  intro c hc
  rcases mem_flushState cfg r c hc with hs | ⟨G, hG, hmem⟩
  · exact Or.inl hs
  · right
    by_cases hGF : G = F
    · exact Or.inl (hGF ▸ hG)
    · right
      have hsame : RenderState.sameOn G r.m_glstate r.m_state := (h G).2 hGF
      by_cases hck : G = StateField.colorKey
          ∧ (r.m_hasMSAA && cfg.colorkeyAlphaToCoverage) = true
          ∧ r.m_state.colorKey = true
          ∧ r.m_glstate.isBlendEnabled ≠ r.m_state.isBlendEnabled
      · obtain ⟨hGck, hA, hK, hB⟩ := hck
        subst hGck
        refine ⟨?_, hG, hA, hK, hB⟩
        by_contra hFb
        have hblend : RenderState.sameOn StateField.blend r.m_glstate r.m_state :=
          (h StateField.blend).2 fun e => hFb e.symm
        simp only [RenderState.sameOn] at hblend
        apply hB
        simp [RenderState.isBlendEnabled, hblend.1, hblend.2]
      · rw [flushField_same _ _ _ _ G hsame hck] at hmem
        simp at hmem

/-- Witness for C2: the sample renderer with a request that differs in the fog field only;
every emitted call is then a fog call or a texture stage call. -/
theorem flushState_minimal_witness :
    RenderState.differsExactlyIn StateField.fog
        OpenGLRenderer.sampleFogOn.m_glstate OpenGLRenderer.sampleFogOn.m_state
      ∧ ∀ c ∈ (OpenGLRenderer.sampleFogOn.flushState VideoConfig.sample).1,
          c.isTextureStage = true ∨ c.field = some StateField.fog
            ∨ (StateField.fog = StateField.blend ∧ c.field = some StateField.colorKey
                ∧ (OpenGLRenderer.sampleFogOn.m_hasMSAA
                    && VideoConfig.sample.colorkeyAlphaToCoverage) = true
                ∧ OpenGLRenderer.sampleFogOn.m_state.colorKey = true
                ∧ OpenGLRenderer.sampleFogOn.m_glstate.isBlendEnabled
                    ≠ OpenGLRenderer.sampleFogOn.m_state.isBlendEnabled) :=
  ⟨by intro G; cases G <;> decide,
   flushState_minimal VideoConfig.sample OpenGLRenderer.sampleFogOn StateField.fog
     (by intro G; cases G <;> decide)⟩

/-- C4 (fixed field order), as stated, fails in its last part: on the sample renderer with
multisampling and the alpha-to-coverage option active, color key is on in both snapshots, so
the color key field is equal, yet `flushState` emits color key calls because the request
turns blending off. -/
theorem flushState_equal_field_emits_calls :
    RenderState.sameOn StateField.colorKey
        OpenGLRenderer.sampleBlendOff.m_glstate OpenGLRenderer.sampleBlendOff.m_state
      ∧ callsOf StateField.colorKey
          (OpenGLRenderer.sampleBlendOff.flushState VideoConfig.sample).1
        = [glDisable GL_ALPHA_TEST, glEnable GL_SAMPLE_ALPHA_TO_COVERAGE]
      ∧ ¬ (callsOf StateField.colorKey
          (OpenGLRenderer.sampleBlendOff.flushState VideoConfig.sample).1 = []) := by
  refine ⟨by decide, by decide, by decide⟩

/-- C4 (fixed field order), amended: the calls that `flushState` emits are in the order cull,
fog, color key, depth test, depth write, depth offset, blend factors, followed by the texture
stage calls (no call precedes a call of an earlier field); and a field whose applied and
requested values are equal contributes no call, except the color key field when
multisampling and the alpha-to-coverage option are active, the requested color key is on and
the request switches between blending and no blending. -/
theorem flushState_field_order (cfg : VideoConfig) (r : OpenGLRenderer) :
    List.Pairwise (fun a b : GLcall => a.rank ≤ b.rank) (r.flushState cfg).1
      ∧ ∀ F : StateField, RenderState.sameOn F r.m_glstate r.m_state →
          ¬ (F = StateField.colorKey ∧ (r.m_hasMSAA && cfg.colorkeyAlphaToCoverage) = true
              ∧ r.m_state.colorKey = true
              ∧ r.m_glstate.isBlendEnabled ≠ r.m_state.isBlendEnabled) →
          callsOf F (r.flushState cfg).1 = [] := by
  constructor
  · show List.Pairwise _ (flushPipeline cfg r ++ _)
    rw [flushPipeline_eq]
    refine (rank_chain 6 7 _ _ ?_ ?_ (by decide)).1
    · refine rank_chain 5 6 _ _ ?_ ?_ (by decide)
      · refine rank_chain 4 5 _ _ ?_ ?_ (by decide)
        · refine rank_chain 3 4 _ _ ?_ ?_ (by decide)
          · refine rank_chain 2 3 _ _ ?_ ?_ (by decide)
            · refine rank_chain 1 2 _ _ ?_ ?_ (by decide)
              · refine rank_chain 0 1 _ _ ?_ ?_ (by decide)
                · refine rank_chain 0 0 [] _ ⟨List.Pairwise.nil, by simp⟩ ?_ (by decide)
                  intro c hc
                  simp [GLcall.rank, flushCull_field _ _ _ c hc, StateField.rank]
                · intro c hc
                  simp [GLcall.rank, flushFog_field _ _ c hc, StateField.rank]
              · intro c hc
                simp [GLcall.rank, flushColorKey_field _ _ _ c hc, StateField.rank]
            · intro c hc
              simp [GLcall.rank, flushDepthTest_field _ _ c hc, StateField.rank]
          · intro c hc
            simp [GLcall.rank, flushDepthWrite_field _ _ c hc, StateField.rank]
        · intro c hc
          simp [GLcall.rank, flushDepthOffset_field _ _ c hc, StateField.rank]
      · intro c hc
        simp [GLcall.rank, flushBlend_field _ _ c hc, StateField.rank]
    · intro c hc
      simp [GLcall.rank,
        field_of_isTextureStage c (applyStagesFrom_isTextureStage _ _ _ c hc)]
  · intro F hsame hck
    rw [callsOf_flushState]
    exact flushField_same _ _ _ _ F hsame hck

/-- Witness for C4: on the sample renderer with a request that differs in the fog field only,
the emitted calls are in field order and the cull field, being equal, contributes no call. -/
theorem flushState_field_order_witness :
    List.Pairwise (fun a b : GLcall => a.rank ≤ b.rank)
        (OpenGLRenderer.sampleFogOn.flushState VideoConfig.sample).1
      ∧ RenderState.sameOn StateField.cull
          OpenGLRenderer.sampleFogOn.m_glstate OpenGLRenderer.sampleFogOn.m_state
      ∧ callsOf StateField.cull
          (OpenGLRenderer.sampleFogOn.flushState VideoConfig.sample).1 = [] :=
  ⟨(flushState_field_order VideoConfig.sample OpenGLRenderer.sampleFogOn).1,
   by decide,
   (flushState_field_order VideoConfig.sample OpenGLRenderer.sampleFogOn).2 StateField.cull
     (by decide) (by decide)⟩

/-- C5 (color key decision table): when the applied color key is off and the requested one
is on, the color key calls of `flushState` are exactly one enable and no disable: the enable
of the alpha test when the requested blending is on, and otherwise the enable of
alpha-to-coverage when multisampling and the alpha-to-coverage option are both active, and
of the alpha test when they are not. -/
theorem flushState_colorKey_turned_on (cfg : VideoConfig) (r : OpenGLRenderer)
    (hgl : r.m_glstate.colorKey = false) (hst : r.m_state.colorKey = true) :
    callsOf StateField.colorKey (r.flushState cfg).1 =
      [glEnable
        (if r.m_state.isBlendEnabled then GL_ALPHA_TEST
         else if r.m_hasMSAA && cfg.colorkeyAlphaToCoverage then GL_SAMPLE_ALPHA_TO_COVERAGE
         else GL_ALPHA_TEST)] := by
  rw [callsOf_flushState]
  simp only [flushField, flushColorKey, hgl, hst]
  cases r.m_state.isBlendEnabled <;> cases r.m_glstate.isBlendEnabled
    <;> cases (r.m_hasMSAA && cfg.colorkeyAlphaToCoverage) <;> simp

/-- Witness for C5: the sample renderer (multisampling and option active, no blending) with
color key requested selects alpha-to-coverage. -/
theorem flushState_colorKey_turned_on_witness :
    OpenGLRenderer.sampleColorKeyOn.m_glstate.colorKey = false
      ∧ OpenGLRenderer.sampleColorKeyOn.m_state.colorKey = true
      ∧ callsOf StateField.colorKey
          (OpenGLRenderer.sampleColorKeyOn.flushState VideoConfig.sample).1
        = [glEnable GL_SAMPLE_ALPHA_TO_COVERAGE] :=
  ⟨rfl, rfl, flushState_colorKey_turned_on VideoConfig.sample OpenGLRenderer.sampleColorKeyOn
    rfl rfl⟩

/-- C6 (color key and blend swap): with multisampling and the alpha-to-coverage option active
and color key on in both snapshots, a request that switches blending on makes `flushState`
emit, as its color key calls, the disable of alpha-to-coverage followed by the enable of the
alpha test, and a request that switches blending off the disable of the alpha test followed
by the enable of alpha-to-coverage; after the flush the driver has the alpha test enabled
exactly when the requested blending is on and alpha-to-coverage exactly when it is off. -/
theorem flushState_colorKey_blend_swap (cfg : VideoConfig) (r : OpenGLRenderer)
    (en : GLenum → Bool)
    (hmsaa : r.m_hasMSAA = true) (ha2c : cfg.colorkeyAlphaToCoverage = true)
    (hgl : r.m_glstate.colorKey = true) (hst : r.m_state.colorKey = true)
    (htog : r.m_glstate.isBlendEnabled ≠ r.m_state.isBlendEnabled) :
    callsOf StateField.colorKey (r.flushState cfg).1 =
        (if r.m_state.isBlendEnabled then
          [glDisable GL_SAMPLE_ALPHA_TO_COVERAGE, glEnable GL_ALPHA_TEST]
        else [glDisable GL_ALPHA_TEST, glEnable GL_SAMPLE_ALPHA_TO_COVERAGE])
      ∧ runCalls en (r.flushState cfg).1 GL_ALPHA_TEST = r.m_state.isBlendEnabled
      ∧ runCalls en (r.flushState cfg).1 GL_SAMPLE_ALPHA_TO_COVERAGE
          = !r.m_state.isBlendEnabled := by
  have hcalls := colorKey_swap_calls cfg r hmsaa ha2c hgl hst htog
  refine ⟨hcalls, ?_, ?_⟩
  · rw [runCalls_callsOf_colorKey en _ _ (Or.inr rfl), hcalls]
    cases r.m_state.isBlendEnabled <;> simp [runCalls, GLcall.applyTo]
  · rw [runCalls_callsOf_colorKey en _ _ (Or.inl rfl), hcalls]
    cases r.m_state.isBlendEnabled <;> simp [runCalls, GLcall.applyTo]

/-- Witness for C6: the sample renderer with color key on, once with blending requested while
alpha-to-coverage is in use. -/
theorem flushState_colorKey_blend_swap_witness :
    OpenGLRenderer.sampleBlendOn.m_glstate.isBlendEnabled
        ≠ OpenGLRenderer.sampleBlendOn.m_state.isBlendEnabled
      ∧ callsOf StateField.colorKey
          (OpenGLRenderer.sampleBlendOn.flushState VideoConfig.sample).1
        = (if OpenGLRenderer.sampleBlendOn.m_state.isBlendEnabled then
            [glDisable GL_SAMPLE_ALPHA_TO_COVERAGE, glEnable GL_ALPHA_TEST]
          else [glDisable GL_ALPHA_TEST, glEnable GL_SAMPLE_ALPHA_TO_COVERAGE])
      ∧ runCalls (driverWith [GL_BLEND, GL_SAMPLE_ALPHA_TO_COVERAGE])
          (OpenGLRenderer.sampleBlendOn.flushState VideoConfig.sample).1 GL_ALPHA_TEST
        = OpenGLRenderer.sampleBlendOn.m_state.isBlendEnabled
      ∧ runCalls (driverWith [GL_BLEND, GL_SAMPLE_ALPHA_TO_COVERAGE])
          (OpenGLRenderer.sampleBlendOn.flushState VideoConfig.sample).1
          GL_SAMPLE_ALPHA_TO_COVERAGE
        = !OpenGLRenderer.sampleBlendOn.m_state.isBlendEnabled :=
  ⟨by decide,
   flushState_colorKey_blend_swap VideoConfig.sample OpenGLRenderer.sampleBlendOn
     (driverWith [GL_BLEND, GL_SAMPLE_ALPHA_TO_COVERAGE]) rfl rfl rfl rfl (by decide)⟩

/-- C7 (no intermediate state), as stated, fails: on the sample renderer with
alpha-to-coverage in use and blending requested, after the first call that `flushState`
emits (the disable of alpha-to-coverage) neither mechanism is enabled in the driver. -/
theorem flushState_swap_passes_through_neither :
    (OpenGLRenderer.sampleBlendOn.flushState VideoConfig.sample).1.take 1
        = [glDisable GL_SAMPLE_ALPHA_TO_COVERAGE]
      ∧ ¬ (∀ k : Nat,
          runCalls (driverWith [GL_BLEND, GL_SAMPLE_ALPHA_TO_COVERAGE])
              ((OpenGLRenderer.sampleBlendOn.flushState VideoConfig.sample).1.take k)
              GL_SAMPLE_ALPHA_TO_COVERAGE = true
            ∨ runCalls (driverWith [GL_BLEND, GL_SAMPLE_ALPHA_TO_COVERAGE])
              ((OpenGLRenderer.sampleBlendOn.flushState VideoConfig.sample).1.take k)
              GL_ALPHA_TEST = true) := by
  refine ⟨by decide, fun h => ?_⟩
  have h1 := h 1
  revert h1
  decide

/-- C7 (no intermediate state), amended: during the swap that `flushState` performs when
blending is toggled while color key stays on (multisampling and the alpha-to-coverage option
active), starting from a driver in which exactly the mechanism of the applied state is
enabled, after no initial segment of the emitted calls are both mechanisms enabled, and
after the whole sequence exactly the mechanism of the requested state is enabled.  (The old
mechanism is disabled first, so in between neither is enabled.) -/
theorem flushState_swap_never_both (cfg : VideoConfig) (r : OpenGLRenderer)
    (en : GLenum → Bool)
    (hmsaa : r.m_hasMSAA = true) (ha2c : cfg.colorkeyAlphaToCoverage = true)
    (hgl : r.m_glstate.colorKey = true) (hst : r.m_state.colorKey = true)
    (htog : r.m_glstate.isBlendEnabled ≠ r.m_state.isBlendEnabled)
    (hen1 : en GL_ALPHA_TEST = r.m_glstate.isBlendEnabled)
    (hen2 : en GL_SAMPLE_ALPHA_TO_COVERAGE = !r.m_glstate.isBlendEnabled) :
    (∀ k : Nat,
        ¬ (runCalls en ((r.flushState cfg).1.take k) GL_SAMPLE_ALPHA_TO_COVERAGE = true
            ∧ runCalls en ((r.flushState cfg).1.take k) GL_ALPHA_TEST = true))
      ∧ runCalls en (r.flushState cfg).1 GL_ALPHA_TEST = r.m_state.isBlendEnabled
      ∧ runCalls en (r.flushState cfg).1 GL_SAMPLE_ALPHA_TO_COVERAGE
          = !r.m_state.isBlendEnabled := by
  have hcalls := colorKey_swap_calls cfg r hmsaa ha2c hgl hst htog
  refine ⟨fun k => ?_, ?_, ?_⟩
  · rw [runCalls_callsOf_colorKey en _ _ (Or.inr rfl),
      runCalls_callsOf_colorKey en _ _ (Or.inl rfl)]
    have hp := callsOf_take_isPrefix StateField.colorKey k (r.flushState cfg).1
    rw [hcalls] at hp
    revert htog hen1 hen2 hp
    cases r.m_state.isBlendEnabled <;> cases r.m_glstate.isBlendEnabled
      <;> intro htog hen1 hen2 hp <;> simp at htog hp
      <;> rcases isPrefix_pair _ _ _ hp with h | h | h
      <;> simp [h, runCalls, GLcall.applyTo, hen1, hen2]
  · rw [runCalls_callsOf_colorKey en _ _ (Or.inr rfl), hcalls]
    cases r.m_state.isBlendEnabled <;> simp [runCalls, GLcall.applyTo]
  · rw [runCalls_callsOf_colorKey en _ _ (Or.inl rfl), hcalls]
    cases r.m_state.isBlendEnabled <;> simp [runCalls, GLcall.applyTo]

/-- Witness for C7: the sample renderer with color key on and blending switched off by the
request, from a driver in which the alpha test is in use. -/
theorem flushState_swap_never_both_witness :
    OpenGLRenderer.sampleBlendOff.m_glstate.isBlendEnabled
        ≠ OpenGLRenderer.sampleBlendOff.m_state.isBlendEnabled
      ∧ (∀ k : Nat,
          ¬ (runCalls (driverWith [GL_BLEND, GL_ALPHA_TEST])
                ((OpenGLRenderer.sampleBlendOff.flushState VideoConfig.sample).1.take k)
                GL_SAMPLE_ALPHA_TO_COVERAGE = true
              ∧ runCalls (driverWith [GL_BLEND, GL_ALPHA_TEST])
                ((OpenGLRenderer.sampleBlendOff.flushState VideoConfig.sample).1.take k)
                GL_ALPHA_TEST = true))
      ∧ runCalls (driverWith [GL_BLEND, GL_ALPHA_TEST])
          (OpenGLRenderer.sampleBlendOff.flushState VideoConfig.sample).1 GL_ALPHA_TEST
        = OpenGLRenderer.sampleBlendOff.m_state.isBlendEnabled
      ∧ runCalls (driverWith [GL_BLEND, GL_ALPHA_TEST])
          (OpenGLRenderer.sampleBlendOff.flushState VideoConfig.sample).1
          GL_SAMPLE_ALPHA_TO_COVERAGE
        = !OpenGLRenderer.sampleBlendOff.m_state.isBlendEnabled :=
  ⟨by decide,
   flushState_swap_never_both VideoConfig.sample OpenGLRenderer.sampleBlendOff
     (driverWith [GL_BLEND, GL_ALPHA_TEST]) rfl rfl rfl rfl (by decide) (by decide)
     (by decide)⟩

/-- C8 (cull caching, re-enable): in every renderer state, reachable from `reinit` or not,
when the applied cull mode is `CullNone` and the requested mode is a culling mode that maps
to the cached direction `m_glcull` (`CullCW` to `GL_BACK`, the other mode to `GL_FRONT`),
the cull calls of `flushState` are exactly one enable of face culling, with no `glCullFace`
call. -/
theorem flushState_cull_reenable (cfg : VideoConfig) (r : OpenGLRenderer)
    (hgl : r.m_glstate.cull = CullNone) (hst : r.m_state.cull ≠ CullNone)
    (hdir : r.m_glcull = cullDirection r.m_state.cull) :
    callsOf StateField.cull (r.flushState cfg).1 = [glEnable GL_CULL_FACE] := by
  rw [callsOf_flushState]
  have hne : CullNone ≠ r.m_state.cull := fun e => hst e.symm
  simp only [cullDirection] at hdir
  simp [flushField, flushCull, hgl, hst, hne, hdir]

/-- Witness for C8: the state after `reinit` and a request for clockwise culling is
reachable and fulfils the conditions. -/
theorem flushState_cull_reenable_witness :
    Reachable OpenGLRenderer.afterReinitCullCW
      ∧ OpenGLRenderer.afterReinitCullCW.m_glstate.cull = CullNone
      ∧ OpenGLRenderer.afterReinitCullCW.m_glcull
          = cullDirection OpenGLRenderer.afterReinitCullCW.m_state.cull
      ∧ callsOf StateField.cull
          (OpenGLRenderer.afterReinitCullCW.flushState VideoConfig.sample).1
        = [glEnable GL_CULL_FACE] :=
  ⟨Reachable.setter _ _ (Reachable.reinit _ _ _ _), by decide, by decide,
   flushState_cull_reenable VideoConfig.sample OpenGLRenderer.afterReinitCullCW
     (by decide) (by decide) (by decide)⟩

/-- C9 (cull caching, direction change): in every state reachable from `reinit`, when the
applied cull mode is a culling mode and the requested mode is the other culling mode, the
cull calls of `flushState` are exactly one `glCullFace` call with the direction of the
requested mode (`GL_BACK` for `CullCW`, `GL_FRONT` otherwise), with no enable or disable of
face culling. -/
theorem flushState_cull_direction_change (cfg : VideoConfig) (r : OpenGLRenderer)
    (hr : Reachable r)
    (hgl : r.m_glstate.cull ≠ CullNone) (hst : r.m_state.cull ≠ CullNone)
    (hne : r.m_glstate.cull ≠ r.m_state.cull) :
    callsOf StateField.cull (r.flushState cfg).1
      = [glCullFace (cullDirection r.m_state.cull)] := by
  rw [callsOf_flushState]
  have hcache := cull_cache_of_reachable r hr hgl
  have hdiff : r.m_glcull ≠ cullDirection r.m_state.cull := by
    rw [hcache]
    revert hgl hst hne
    cases r.m_glstate.cull <;> cases r.m_state.cull <;> simp [cullDirection]
  simp only [cullDirection] at hdiff
  simp [flushField, flushCull, hgl, hst, hne, hdiff, cullDirection]

/-- Witness for C9: after `reinit`, a request for clockwise culling and a flush, a request
for counter-clockwise culling changes the direction to `GL_FRONT`. -/
theorem flushState_cull_direction_change_witness :
    Reachable OpenGLRenderer.afterFlushCullCCW
      ∧ OpenGLRenderer.afterFlushCullCCW.m_glstate.cull = CullCW
      ∧ OpenGLRenderer.afterFlushCullCCW.m_state.cull = CullCCW
      ∧ callsOf StateField.cull
          (OpenGLRenderer.afterFlushCullCCW.flushState VideoConfig.sample).1
        = [glCullFace GL_FRONT] :=
  ⟨Reachable.setter _ _ (Reachable.flushState _ _
      (Reachable.setter _ _ (Reachable.reinit _ _ _ _))),
   by decide, by decide,
   flushState_cull_direction_change VideoConfig.sample OpenGLRenderer.afterFlushCullCCW
     (Reachable.setter _ _ (Reachable.flushState _ _
       (Reachable.setter _ _ (Reachable.reinit _ _ _ _))))
     (by decide) (by decide) (by decide)⟩

/-- C10 (depth offset): whenever the requested depth offset `d` differs from the applied one,
the depth offset calls of `flushState` are exactly one `glPolygonOffset` call whose factor
and units are both the float conversion of `-d`; for an offset below `2 ^ 24` in magnitude
the conversion is exact, so both arguments equal `-d`. -/
theorem flushState_depthOffset (cfg : VideoConfig) (r : OpenGLRenderer)
    (h : r.m_glstate.depthOffset ≠ r.m_state.depthOffset) :
    callsOf StateField.depthOffset (r.flushState cfg).1
        = [glPolygonOffset (GLfloat.ofInt (-r.m_state.depthOffset))
            (GLfloat.ofInt (-r.m_state.depthOffset))]
      ∧ (r.m_state.depthOffset.natAbs < 2 ^ 24 →
          GLfloat.ofInt (-r.m_state.depthOffset) = -(r.m_state.depthOffset : Rat)) := by
  constructor
  · rw [callsOf_flushState, GLfloat.ofInt_neg]
    simp [flushField, flushDepthOffset, h]
  · intro hsmall
    rw [GLfloat.ofInt_neg, GLfloat.ofInt_exact _ hsmall]

/-- Witness for C10: the sample renderer with a depth offset of 3 requested calls
`glPolygonOffset(-3, -3)`. -/
theorem flushState_depthOffset_witness :
    OpenGLRenderer.sampleDepthOffset.m_glstate.depthOffset
        ≠ OpenGLRenderer.sampleDepthOffset.m_state.depthOffset
      ∧ callsOf StateField.depthOffset
          (OpenGLRenderer.sampleDepthOffset.flushState VideoConfig.sample).1
        = [glPolygonOffset (GLfloat.ofInt (-OpenGLRenderer.sampleDepthOffset.m_state.depthOffset))
            (GLfloat.ofInt (-OpenGLRenderer.sampleDepthOffset.m_state.depthOffset))]
      ∧ GLfloat.ofInt (-OpenGLRenderer.sampleDepthOffset.m_state.depthOffset)
        = -(OpenGLRenderer.sampleDepthOffset.m_state.depthOffset : Rat) :=
  ⟨by decide,
   (flushState_depthOffset VideoConfig.sample OpenGLRenderer.sampleDepthOffset
     (by decide)).1,
   (flushState_depthOffset VideoConfig.sample OpenGLRenderer.sampleDepthOffset
     (by decide)).2 (by decide)⟩

/-- C11 (applied snapshot written by the reconciler only), as stated, fails for `Clear`: on
the sample renderer with depth write off, a clear of the depth buffer turns the applied depth
write on. -/
theorem Clear_writes_applied_depthWrite :
    OpenGLRenderer.sampleDepthWriteOff.m_glstate.depthWrite = false
      ∧ (OpenGLRenderer.sampleDepthWriteOff.Clear 480
          { ColorBuffer := false, DepthBuffer := true } Color.none 1 []).2.m_glstate.depthWrite
        = true
      ∧ (OpenGLRenderer.sampleDepthWriteOff.Clear 480
          { ColorBuffer := false, DepthBuffer := true } Color.none 1 []).2.m_glstate
        ≠ OpenGLRenderer.sampleDepthWriteOff.m_glstate := by
  refine ⟨by decide, by decide, by decide⟩

/-- C11 (applied snapshot written by the reconciler only), amended: `SetViewport`,
`SetScissor`, `SetViewMatrix`, `SetProjectionMatrix`, `enableTransform`, `disableTransform`
and `setMaxAnisotropy` leave the applied state `m_glstate` as it was, for every input; `Clear`
leaves every field of it but depth write as it was, and turns the applied depth write on when
the depth buffer is cleared. -/
theorem applied_state_frame (height : Int) (r : OpenGLRenderer) (rect : Rect)
    (matView matProj : Mat4) (value : GLfloat) (bufferFlags : BufferFlags)
    (clearColor : Color) (clearDepth : GLfloat) (rects : List Rect) :
    (r.SetViewport height rect).2.m_glstate = r.m_glstate
      ∧ (r.SetScissor height rect).2.m_glstate = r.m_glstate
      ∧ (r.SetViewMatrix matView).m_glstate = r.m_glstate
      ∧ (r.SetProjectionMatrix matProj).m_glstate = r.m_glstate
      ∧ r.enableTransform.2.m_glstate = r.m_glstate
      ∧ r.disableTransform.2.m_glstate = r.m_glstate
      ∧ (r.setMaxAnisotropy value).2.m_glstate = r.m_glstate
      ∧ (r.Clear height bufferFlags clearColor clearDepth rects).2.m_glstate
        = { r.m_glstate with
            depthWrite := r.m_glstate.depthWrite || bufferFlags.DepthBuffer } := by
  refine ⟨?_, ?_, ?_, ?_, ?_, ?_, ?_, ?_⟩
  · simp only [OpenGLRenderer.SetViewport]; split_ifs <;> rfl
  · simp only [OpenGLRenderer.SetScissor]; split_ifs <;> rfl
  · simp only [OpenGLRenderer.SetViewMatrix]; split_ifs <;> rfl
  · simp only [OpenGLRenderer.SetProjectionMatrix]; split_ifs <;> rfl
  · simp only [OpenGLRenderer.enableTransform]; split_ifs <;> rfl
  · simp only [OpenGLRenderer.disableTransform]; split_ifs <;> rfl
  · simp only [OpenGLRenderer.setMaxAnisotropy]; split_ifs <;> rfl
  · simp only [OpenGLRenderer.Clear]
    cases hd : bufferFlags.DepthBuffer <;> cases hw : r.m_glstate.depthWrite
      <;> simp [← hw]

/-- C12 (transform invalidation by matrix change): a `SetViewMatrix` with a matrix different
from the stored view matrix stores the new matrix and turns the transform cache from
ModelViewProjection to Unset, while a cache that reads NoTransform (or Unset) stays as it is;
`SetProjectionMatrix` does the same with the stored projection matrix. -/
theorem SetMatrix_invalidates_transform (r : OpenGLRenderer) (matView matProj : Mat4) :
    (r.view ≠ matView →
        (r.SetViewMatrix matView).view = matView
          ∧ (r.SetViewMatrix matView).currentTransform
            = (match r.currentTransform with
              | GLTransformMode.GL_ModelViewProjectionTransform =>
                GLTransformMode.GL_UnsetTransform
              | GLTransformMode.GL_NoTransform => GLTransformMode.GL_NoTransform
              | GLTransformMode.GL_UnsetTransform => GLTransformMode.GL_UnsetTransform))
      ∧ (r.projection ≠ matProj →
        (r.SetProjectionMatrix matProj).projection = matProj
          ∧ (r.SetProjectionMatrix matProj).currentTransform
            = (match r.currentTransform with
              | GLTransformMode.GL_ModelViewProjectionTransform =>
                GLTransformMode.GL_UnsetTransform
              | GLTransformMode.GL_NoTransform => GLTransformMode.GL_NoTransform
              | GLTransformMode.GL_UnsetTransform => GLTransformMode.GL_UnsetTransform)) := by
  constructor
  · intro hv
    simp only [OpenGLRenderer.SetViewMatrix, if_neg hv]
    cases r.currentTransform <;> simp
  · intro hp
    simp only [OpenGLRenderer.SetProjectionMatrix, if_neg hp]
    cases r.currentTransform <;> simp

/-- Witness for C12: the sample renderer with loaded matrices and a new matrix; the cache
goes from ModelViewProjection to Unset. -/
theorem SetMatrix_invalidates_transform_witness :
    OpenGLRenderer.sampleTransformed.view ≠ Mat4.sample
      ∧ OpenGLRenderer.sampleTransformed.projection ≠ Mat4.sample
      ∧ ((OpenGLRenderer.sampleTransformed.SetViewMatrix Mat4.sample).view = Mat4.sample
          ∧ (OpenGLRenderer.sampleTransformed.SetViewMatrix Mat4.sample).currentTransform
            = GLTransformMode.GL_UnsetTransform)
      ∧ ((OpenGLRenderer.sampleTransformed.SetProjectionMatrix Mat4.sample).projection
            = Mat4.sample
          ∧ (OpenGLRenderer.sampleTransformed.SetProjectionMatrix Mat4.sample).currentTransform
            = GLTransformMode.GL_UnsetTransform) :=
  ⟨by decide, by decide,
   (SetMatrix_invalidates_transform OpenGLRenderer.sampleTransformed Mat4.sample
     Mat4.sample).1 (by decide),
   (SetMatrix_invalidates_transform OpenGLRenderer.sampleTransformed Mat4.sample
     Mat4.sample).2 (by decide)⟩

/-- C13 (an identical matrix does not invalidate): after `SetViewMatrix(M)` and
`enableTransform`, a second `SetViewMatrix(M)` changes nothing, so the cache still reads
ModelViewProjection, the stored view matrix is still `M` and a following `enableTransform`
emits no call; a `SetViewMatrix` with a matrix different from `M` turns the cache to Unset. -/
theorem SetViewMatrix_identical_keeps_transform (r : OpenGLRenderer) (M : Mat4) :
    (r.SetViewMatrix M).enableTransform.2.SetViewMatrix M
        = (r.SetViewMatrix M).enableTransform.2
      ∧ ((r.SetViewMatrix M).enableTransform.2.SetViewMatrix M).currentTransform
        = GLTransformMode.GL_ModelViewProjectionTransform
      ∧ ((r.SetViewMatrix M).enableTransform.2.SetViewMatrix M).view = M
      ∧ ((r.SetViewMatrix M).enableTransform.2.SetViewMatrix M).enableTransform.1 = []
      ∧ ∀ N : Mat4, N ≠ M →
          ((r.SetViewMatrix M).enableTransform.2.SetViewMatrix N).currentTransform
            = GLTransformMode.GL_UnsetTransform := by
  have hview : (r.SetViewMatrix M).enableTransform.2.view = M := by
    simp only [OpenGLRenderer.SetViewMatrix, OpenGLRenderer.enableTransform]
    split_ifs <;> simp_all
  have hmode : (r.SetViewMatrix M).enableTransform.2.currentTransform
      = GLTransformMode.GL_ModelViewProjectionTransform := by
    simp only [OpenGLRenderer.enableTransform]
    split_ifs with h
    · exact h
    · rfl
  have hsame : (r.SetViewMatrix M).enableTransform.2.SetViewMatrix M
      = (r.SetViewMatrix M).enableTransform.2 := by
    rw [OpenGLRenderer.SetViewMatrix, if_pos hview]
  refine ⟨hsame, ?_, ?_, ?_, ?_⟩
  · rw [hsame]; exact hmode
  · rw [hsame]; exact hview
  · rw [hsame, OpenGLRenderer.enableTransform, if_pos hmode]
  · intro N hN
    have hne : ¬ (r.SetViewMatrix M).enableTransform.2.view = N := by
      rw [hview]; exact fun e => hN e.symm
    rw [OpenGLRenderer.SetViewMatrix, if_neg hne]
    simp [hmode]

/-- Witness for C13: on the sample renderer with the sample matrix, setting the empty matrix
afterwards turns the cache to Unset. -/
theorem SetViewMatrix_identical_keeps_transform_witness :
    ({ bits := [] } : Mat4) ≠ Mat4.sample
      ∧ ((OpenGLRenderer.sample.SetViewMatrix Mat4.sample).enableTransform.2.SetViewMatrix
          { bits := [] }).currentTransform = GLTransformMode.GL_UnsetTransform :=
  ⟨by decide,
   (SetViewMatrix_identical_keeps_transform OpenGLRenderer.sample Mat4.sample).2.2.2.2
     { bits := [] } (by decide)⟩

/-- C14 (viewport change invalidates the transform), as stated, fails: on the sample renderer
with the cache reading ModelViewProjection, a `SetViewport` with a new rectangle leaves the
cache at ModelViewProjection, not Unset. -/
theorem SetViewport_keeps_loaded_transform :
    Rect.sample ≠ OpenGLRenderer.sampleTransformed.viewport
      ∧ (OpenGLRenderer.sampleTransformed.SetViewport 480 Rect.sample).2.currentTransform
        = GLTransformMode.GL_ModelViewProjectionTransform
      ∧ (OpenGLRenderer.sampleTransformed.SetViewport 480 Rect.sample).2.currentTransform
        ≠ GLTransformMode.GL_UnsetTransform := by
  refine ⟨by decide, by decide, by decide⟩

/-- C14 (viewport change invalidates the transform), amended: after a `SetViewport` whose
rectangle differs from the current viewport, the transform cache is Unset when it read Unset
or NoTransform before, and stays ModelViewProjection when it read ModelViewProjection. -/
theorem SetViewport_invalidates_NoTransform (height : Int) (r : OpenGLRenderer) (rect : Rect)
    (h : rect ≠ r.viewport) :
    (r.SetViewport height rect).2.currentTransform
      = (match r.currentTransform with
        | GLTransformMode.GL_UnsetTransform => GLTransformMode.GL_UnsetTransform
        | GLTransformMode.GL_NoTransform => GLTransformMode.GL_UnsetTransform
        | GLTransformMode.GL_ModelViewProjectionTransform =>
          GLTransformMode.GL_ModelViewProjectionTransform) := by
  simp only [OpenGLRenderer.SetViewport, if_neg h]
  cases r.currentTransform <;> simp

/-- Witness for C14: the sample renderer after `disableTransform`, with a new rectangle. -/
theorem SetViewport_invalidates_NoTransform_witness :
    Rect.sample ≠ OpenGLRenderer.sample.disableTransform.2.viewport
      ∧ (OpenGLRenderer.sample.disableTransform.2.SetViewport 480
          Rect.sample).2.currentTransform
        = (match OpenGLRenderer.sample.disableTransform.2.currentTransform with
          | GLTransformMode.GL_UnsetTransform => GLTransformMode.GL_UnsetTransform
          | GLTransformMode.GL_NoTransform => GLTransformMode.GL_UnsetTransform
          | GLTransformMode.GL_ModelViewProjectionTransform =>
            GLTransformMode.GL_ModelViewProjectionTransform) :=
  ⟨by decide,
   SetViewport_invalidates_NoTransform 480 OpenGLRenderer.sample.disableTransform.2
     Rect.sample (by decide)⟩

/-- C15 (same viewport is a no-op): a `SetViewport` with the rectangle that is already the
viewport emits no driver call (so no converted coordinates either) and returns the renderer
as it was, stored viewport and transform cache included. -/
theorem SetViewport_same_is_noop (height : Int) (r : OpenGLRenderer) :
    r.SetViewport height r.viewport = ([], r) := by
  simp [OpenGLRenderer.SetViewport]

/-! ## Lemmas on vertex buffer creation -/

theorem createVertexBufferImpl_empty (ctx : GLContext) (capacity : Nat) (usage : BufferUsage)
    (warned : Bool) :
    createVertexBufferImpl ctx capacity usage "" warned
      = { buffer :=
            match (createVertexBufferImpl.ranged ctx capacity usage "").1 with
            | some buffer => buffer
            | none => VertexBuffer.GLVertexBuffer capacity usage
          warned := warned, log := [], resolves := 0 } := by
  rw [createVertexBufferImpl]
  split
  · rename_i b m h
    simp [h]
  · rename_i m h
    simp [h]

theorem createVertexBufferImpl_empty_buffer (ctx : GLContext) (capacity : Nat)
    (usage : BufferUsage) (warned warned' : Bool) :
    (createVertexBufferImpl ctx capacity usage "" warned).buffer
      = (createVertexBufferImpl ctx capacity usage "" warned').buffer := by
  rw [createVertexBufferImpl_empty, createVertexBufferImpl_empty]

theorem createVertexBufferImpl_no_range (ctx : GLContext) (capacity : Nat)
    (usage : BufferUsage) (setting : String) (warned : Bool)
    (hrange : ctx.GLEW_ARB_map_buffer_range = false) :
    (createVertexBufferImpl ctx capacity usage setting warned).buffer
      = VertexBuffer.GLVertexBuffer capacity usage := by
  have hr : ∀ s : String, createVertexBufferImpl.ranged ctx capacity usage s = (none, false) := by
    intro s
    simp [createVertexBufferImpl.ranged, hrange]
  rw [createVertexBufferImpl]
  simp only [hr]
  split_ifs <;> simp [createVertexBufferImpl_empty, hr]

theorem createVertexBufferImpl_persistent_empty (ctx : GLContext) (capacity : Nat)
    (warned : Bool) (hrange : ctx.GLEW_ARB_map_buffer_range = true)
    (hheader : ctx.GL_ARB_buffer_storage = true) (hstorage : ctx.GLEW_ARB_buffer_storage = true) :
    (createVertexBufferImpl ctx capacity BufferUsage.Stream "" warned).buffer
      = VertexBuffer.GLPersistentOrphanVertexBuffer capacity BufferUsage.Stream := by
  rw [createVertexBufferImpl_empty]
  simp [createVertexBufferImpl.ranged, hrange, hheader, hstorage]

/-! ## The claims on vertex buffer creation -/

/-- C18 (default persistent strategy), as stated, fails: in the sample context with range
mapping and persistent buffer storage supported, the empty setting and Stream usage yield the
persistent-orphan buffer, not the fenced buffer with three buffers. -/
theorem createVertexBufferImpl_default_is_not_fenced :
    (createVertexBufferImpl GLContext.samplePersistent 1000 BufferUsage.Stream "" false).buffer
        = VertexBuffer.GLPersistentOrphanVertexBuffer 1000 BufferUsage.Stream
      ∧ (createVertexBufferImpl GLContext.samplePersistent 1000 BufferUsage.Stream ""
          false).buffer
        ≠ VertexBuffer.GLPersistentFenceVertexBuffer 1000 BufferUsage.Stream 3 := by
  have h := createVertexBufferImpl_persistent_empty GLContext.samplePersistent 1000 false
    rfl rfl rfl
  rw [h]
  exact ⟨rfl, by decide⟩

/-- C18 (default persistent strategy), amended: when range mapping and persistent buffer
storage are supported, the empty setting with Stream usage yields the persistent-orphan
buffer; the fenced buffer with three buffers is what the setting `persistent-x3` yields for
Stream usage. -/
theorem createVertexBufferImpl_persistent_stream (ctx : GLContext) (capacity : Nat)
    (warned : Bool) (hrange : ctx.GLEW_ARB_map_buffer_range = true)
    (hheader : ctx.GL_ARB_buffer_storage = true) (hstorage : ctx.GLEW_ARB_buffer_storage = true) :
    (createVertexBufferImpl ctx capacity BufferUsage.Stream "" warned).buffer
        = VertexBuffer.GLPersistentOrphanVertexBuffer capacity BufferUsage.Stream
      ∧ (createVertexBufferImpl ctx capacity BufferUsage.Stream "persistent-x3" warned).buffer
        = VertexBuffer.GLPersistentFenceVertexBuffer capacity BufferUsage.Stream 3 := by
  refine ⟨createVertexBufferImpl_persistent_empty ctx capacity warned hrange hheader hstorage, ?_⟩
  rw [createVertexBufferImpl]
  simp [createVertexBufferImpl.ranged, hrange, hheader, hstorage]

/-- Witness for C18: the sample context with persistent buffer storage. -/
theorem createVertexBufferImpl_persistent_stream_witness :
    GLContext.samplePersistent.GLEW_ARB_map_buffer_range = true
      ∧ GLContext.samplePersistent.GLEW_ARB_buffer_storage = true
      ∧ (createVertexBufferImpl GLContext.samplePersistent 1000 BufferUsage.Stream ""
          false).buffer
        = VertexBuffer.GLPersistentOrphanVertexBuffer 1000 BufferUsage.Stream
      ∧ (createVertexBufferImpl GLContext.samplePersistent 1000 BufferUsage.Stream
          "persistent-x3" false).buffer
        = VertexBuffer.GLPersistentFenceVertexBuffer 1000 BufferUsage.Stream 3 :=
  ⟨rfl, rfl,
   createVertexBufferImpl_persistent_stream GLContext.samplePersistent 1000 false rfl rfl rfl⟩

/-- C19 (full-map fallback): when range mapping is not supported, `createVertexBufferImpl`
returns the full-map buffer `GLVertexBuffer` for every usage, capacity, setting and value of
`warned`; so with VBOs enabled `createVertexBufferTL`, `createVertexBuffer` and
`createVertexBuffer3` return `GLVertexBuffer`, not the immediate-mode `GLNoVertexBuffer`. -/
theorem createVertexBuffer_full_map (ctx : GLContext) (cfg : VideoConfig)
    (r : OpenGLRenderer) (capacity : Nat) (usage : BufferUsage) (setting : String)
    (warned : Bool) (w : WarnedStatics)
    (hrange : ctx.GLEW_ARB_map_buffer_range = false) (hvbo : r.useVBOs = true) :
    (createVertexBufferImpl ctx capacity usage setting warned).buffer
        = VertexBuffer.GLVertexBuffer capacity usage
      ∧ (r.createVertexBufferTL ctx cfg capacity usage w).1
        = VertexBuffer.GLVertexBuffer capacity usage
      ∧ (r.createVertexBuffer ctx cfg capacity usage w).1
        = VertexBuffer.GLVertexBuffer capacity usage
      ∧ (r.createVertexBuffer3 ctx cfg capacity usage w).1
        = VertexBuffer.GLVertexBuffer capacity usage
      ∧ (r.createVertexBuffer ctx cfg capacity usage w).1
        ≠ VertexBuffer.GLNoVertexBuffer capacity := by
  have h := fun s wd => createVertexBufferImpl_no_range ctx capacity usage s wd hrange
  refine ⟨h _ _, ?_, ?_, ?_, ?_⟩
  · simp [OpenGLRenderer.createVertexBufferTL, hvbo, h]
  · simp [OpenGLRenderer.createVertexBuffer, hvbo, h]
  · simp [OpenGLRenderer.createVertexBuffer3, hvbo, h]
  · simp [OpenGLRenderer.createVertexBuffer, hvbo, h]

/-- Witness for C19: a Dynamic buffer of capacity 1000 in the sample context without range
mapping, with the setting `maprange`. -/
theorem createVertexBuffer_full_map_witness :
    GLContext.sampleNoRange.GLEW_ARB_map_buffer_range = false
      ∧ OpenGLRenderer.sample.useVBOs = true
      ∧ (createVertexBufferImpl GLContext.sampleNoRange 1000 BufferUsage.Dynamic "maprange"
          false).buffer
        = VertexBuffer.GLVertexBuffer 1000 BufferUsage.Dynamic
      ∧ (OpenGLRenderer.sample.createVertexBufferTL GLContext.sampleNoRange VideoConfig.sample
          1000 BufferUsage.Dynamic WarnedStatics.initial).1
        = VertexBuffer.GLVertexBuffer 1000 BufferUsage.Dynamic
      ∧ (OpenGLRenderer.sample.createVertexBuffer GLContext.sampleNoRange VideoConfig.sample
          1000 BufferUsage.Dynamic WarnedStatics.initial).1
        = VertexBuffer.GLVertexBuffer 1000 BufferUsage.Dynamic
      ∧ (OpenGLRenderer.sample.createVertexBuffer3 GLContext.sampleNoRange VideoConfig.sample
          1000 BufferUsage.Dynamic WarnedStatics.initial).1
        = VertexBuffer.GLVertexBuffer 1000 BufferUsage.Dynamic
      ∧ (OpenGLRenderer.sample.createVertexBuffer GLContext.sampleNoRange VideoConfig.sample
          1000 BufferUsage.Dynamic WarnedStatics.initial).1
        ≠ VertexBuffer.GLNoVertexBuffer 1000 :=
  ⟨rfl, rfl,
   createVertexBuffer_full_map GLContext.sampleNoRange VideoConfig.sample
     OpenGLRenderer.sample 1000 BufferUsage.Dynamic "maprange" false WarnedStatics.initial
     rfl rfl⟩

/-- C20 (strategy selection never fails): `createVertexBufferImpl` is a total function, so for
every context, usage, setting and value of `warned` it terminates with a buffer; it makes at
most one nested call of itself; and for a setting that is none of the recognised strategy
names the buffer is the one returned for the empty setting with the same context, capacity
and usage. -/
theorem createVertexBufferImpl_never_fails (ctx : GLContext) (capacity : Nat)
    (usage : BufferUsage) (setting : String) (warned : Bool) :
    (createVertexBufferImpl ctx capacity usage setting warned).resolves ≤ 1
      ∧ (setting ∉ recognisedSettings →
          (createVertexBufferImpl ctx capacity usage setting warned).buffer
            = (createVertexBufferImpl ctx capacity usage "" warned).buffer) := by
  constructor
  · rw [createVertexBufferImpl]
    split
    · simp
    · split_ifs
      · simp
      · simp [createVertexBufferImpl_empty]
  · intro hnot
    by_cases he : setting = ""
    · subst he; rfl
    · simp only [recognisedSettings, List.mem_cons, List.mem_singleton, not_or,
        List.not_mem_nil, not_false_eq_true, and_true] at hnot
      obtain ⟨h1, h2, h3, h4, h5, h6, h7, h8⟩ := hnot
      have hr : (createVertexBufferImpl.ranged ctx capacity usage setting).1 = none := by
        simp only [createVertexBufferImpl.ranged]
        split_ifs <;> simp_all
      rw [createVertexBufferImpl]
      split
      · rename_i b m hb
        rw [hb] at hr
        simp at hr
      · rw [dif_neg (by simp [he, h7, h8])]
        exact createVertexBufferImpl_empty_buffer ctx capacity usage _ _

/-- Witness for C20: the setting `bogus` in the sample context with persistent storage. -/
theorem createVertexBufferImpl_never_fails_witness :
    "bogus" ∉ recognisedSettings
      ∧ (createVertexBufferImpl GLContext.samplePersistent 1000 BufferUsage.Stream "bogus"
          false).buffer
        = (createVertexBufferImpl GLContext.samplePersistent 1000 BufferUsage.Stream ""
          false).buffer :=
  ⟨by decide,
   (createVertexBufferImpl_never_fails GLContext.samplePersistent 1000 BufferUsage.Stream
     "bogus" false).2 (by decide)⟩

/-! ## Lemmas on warnings and usage -/

theorem createVertexBufferImpl_unrecognised (ctx : GLContext) (capacity : Nat)
    (usage : BufferUsage) (setting : String) (warned : Bool)
    (hne : setting ≠ "") (hnot : setting ∉ recognisedSettings) :
    (createVertexBufferImpl ctx capacity usage setting warned).log
        = (if warned then [] else [setting])
      ∧ (createVertexBufferImpl ctx capacity usage setting warned).warned = true := by
  simp only [recognisedSettings, List.mem_cons, List.mem_singleton, not_or,
    List.not_mem_nil, not_false_eq_true, and_true] at hnot
  obtain ⟨h1, h2, h3, h4, h5, h6, h7, h8⟩ := hnot
  have hr : createVertexBufferImpl.ranged ctx capacity usage setting = (none, false) := by
    simp only [createVertexBufferImpl.ranged]
    split_ifs <;> simp_all
  rw [createVertexBufferImpl]
  simp only [hr]
  rw [dif_neg (by simp [hne, h7, h8])]
  simp only [createVertexBufferImpl_empty]
  cases warned <;> simp

theorem createVertexBufferImpl_ranged_static (ctx : GLContext) (capacity : Nat)
    (setting : String) :
    (createVertexBufferImpl.ranged ctx capacity BufferUsage.Static setting).1
        = some (VertexBuffer.GLMapRangeVertexBuffer capacity BufferUsage.Static)
      ∨ (createVertexBufferImpl.ranged ctx capacity BufferUsage.Static setting).1 = none := by
  simp only [createVertexBufferImpl.ranged]
  split_ifs <;> simp_all

theorem createVertexBufferImpl_static_cases (ctx : GLContext) (capacity : Nat)
    (setting : String) (warned : Bool) :
    (createVertexBufferImpl ctx capacity BufferUsage.Static setting warned).buffer
        = VertexBuffer.GLMapRangeVertexBuffer capacity BufferUsage.Static
      ∨ (createVertexBufferImpl ctx capacity BufferUsage.Static setting warned).buffer
        = VertexBuffer.GLVertexBuffer capacity BufferUsage.Static := by
  have hempty : ∀ wd : Bool,
      (createVertexBufferImpl ctx capacity BufferUsage.Static "" wd).buffer
          = VertexBuffer.GLMapRangeVertexBuffer capacity BufferUsage.Static
        ∨ (createVertexBufferImpl ctx capacity BufferUsage.Static "" wd).buffer
          = VertexBuffer.GLVertexBuffer capacity BufferUsage.Static := by
    intro wd
    rw [createVertexBufferImpl_empty]
    rcases createVertexBufferImpl_ranged_static ctx capacity "" with h | h <;> simp [h]
  rw [createVertexBufferImpl]
  split
  · rename_i b m hb
    rcases createVertexBufferImpl_ranged_static ctx capacity setting with h | h
    · rw [hb] at h
      simp only [Option.some.injEq] at h
      exact Or.inl (by simp [h])
    · rw [hb] at h
      simp at h
  · split_ifs
    · exact Or.inr rfl
    · exact hempty _

/-! ## The claims on warnings, usage and the immediate mode -/

/-- C21 (warn once): the code logs one warning for each vertex type, not one in all.  With
VBOs enabled, the unknown setting `bogus` and no warning logged before, a creation with
`createVertexBufferTL` followed by one with `createVertexBuffer`, one with
`createVertexBuffer3` and a second one with `createVertexBufferTL` logs three warnings,
since each instantiation of `createVertexBufferImpl` has its own static `warned`; two
creations with the same function log one. -/
theorem createAll_warns_once_per_vertex_type :
    (OpenGLRenderer.sample.createAll GLContext.sample VideoConfig.sampleBogus
        [{ kind := VertexKind.TexturedVertex, capacity := 100, usage := BufferUsage.Stream },
         { kind := VertexKind.SMY_VERTEX, capacity := 100, usage := BufferUsage.Stream },
         { kind := VertexKind.SMY_VERTEX3, capacity := 100, usage := BufferUsage.Stream },
         { kind := VertexKind.TexturedVertex, capacity := 100, usage := BufferUsage.Stream }]
        WarnedStatics.initial).1 = ["bogus", "bogus", "bogus"]
      ∧ (OpenGLRenderer.sample.createAll GLContext.sample VideoConfig.sampleBogus
        [{ kind := VertexKind.TexturedVertex, capacity := 100, usage := BufferUsage.Stream },
         { kind := VertexKind.TexturedVertex, capacity := 100, usage := BufferUsage.Stream }]
        WarnedStatics.initial).1 = ["bogus"] := by
  have hb : ∀ (capacity : Nat) (usage : BufferUsage) (warned : Bool),
      (createVertexBufferImpl GLContext.sample capacity usage "bogus" warned).log
          = (if warned then [] else ["bogus"])
        ∧ (createVertexBufferImpl GLContext.sample capacity usage "bogus" warned).warned
          = true :=
    fun capacity usage warned =>
      createVertexBufferImpl_unrecognised GLContext.sample capacity usage "bogus" warned
        (by decide) (by decide)
  constructor <;>
    simp [OpenGLRenderer.createAll, OpenGLRenderer.create, OpenGLRenderer.createVertexBufferTL,
      OpenGLRenderer.createVertexBuffer, OpenGLRenderer.createVertexBuffer3,
      OpenGLRenderer.sample, VideoConfig.sampleBogus, VideoConfig.sample,
      WarnedStatics.initial, hb]

/-- C22 (incompatible hint warns), as stated, fails: in the sample context with persistent
buffer storage, the setting `persistent-x3` with Dynamic usage and no warning logged before
logs no warning, and the static `warned` stays false. -/
theorem createVertexBufferImpl_incompatible_is_silent :
    incompatibleSetting "persistent-x3" BufferUsage.Dynamic
      ∧ (createVertexBufferImpl GLContext.samplePersistent 1000 BufferUsage.Dynamic
          "persistent-x3" false).log = []
      ∧ (createVertexBufferImpl GLContext.samplePersistent 1000 BufferUsage.Dynamic
          "persistent-x3" false).warned = false := by
  refine ⟨Or.inl ⟨Or.inl rfl, by decide⟩, ?_, ?_⟩
  · rw [createVertexBufferImpl]
    simp [createVertexBufferImpl.ranged, GLContext.samplePersistent, GLContext.sample,
      createVertexBufferImpl_empty]
  · rw [createVertexBufferImpl]
    simp [createVertexBufferImpl.ranged, GLContext.samplePersistent, GLContext.sample,
      createVertexBufferImpl_empty]

/-- C22 (incompatible hint warns), amended: on a device with range mapping and persistent
buffer storage, a setting that names a persistent strategy which the usage excludes
(`persistent-x3` or `persistent-x2` without Stream usage, `persistent-orphan` or
`persistent-nosync` with Static usage) counts as matched: the selector logs no warning,
leaves the static `warned` as it was, and returns the buffer chosen for the empty setting. -/
theorem createVertexBufferImpl_incompatible (ctx : GLContext) (capacity : Nat)
    (usage : BufferUsage) (setting : String) (warned : Bool)
    (hrange : ctx.GLEW_ARB_map_buffer_range = true)
    (hheader : ctx.GL_ARB_buffer_storage = true)
    (hstorage : ctx.GLEW_ARB_buffer_storage = true)
    (hinc : incompatibleSetting setting usage) :
    (createVertexBufferImpl ctx capacity usage setting warned).log = []
      ∧ (createVertexBufferImpl ctx capacity usage setting warned).warned = warned
      ∧ (createVertexBufferImpl ctx capacity usage setting warned).buffer
        = (createVertexBufferImpl ctx capacity usage "" warned).buffer := by
  have hr : createVertexBufferImpl.ranged ctx capacity usage setting = (none, true) := by
    rcases hinc with ⟨h | h, hu⟩ | ⟨h | h, hu⟩ <;> subst h <;>
      simp [createVertexBufferImpl.ranged, hrange, hheader, hstorage, hu]
  have hmap : ¬ (setting = "" ∨ setting = "map" ∨ setting = "map+subdata") := by
    rcases hinc with ⟨h | h, _⟩ | ⟨h | h, _⟩ <;> subst h <;> decide
  rw [createVertexBufferImpl]
  simp only [hr]
  rw [dif_neg hmap]
  simp [createVertexBufferImpl_empty]

/-- Witness for C22: `persistent-orphan` with Static usage in the sample context with
persistent buffer storage. -/
theorem createVertexBufferImpl_incompatible_witness :
    incompatibleSetting "persistent-orphan" BufferUsage.Static
      ∧ (createVertexBufferImpl GLContext.samplePersistent 1000 BufferUsage.Static
          "persistent-orphan" false).log = []
      ∧ (createVertexBufferImpl GLContext.samplePersistent 1000 BufferUsage.Static
          "persistent-orphan" false).warned = false
      ∧ (createVertexBufferImpl GLContext.samplePersistent 1000 BufferUsage.Static
          "persistent-orphan" false).buffer
        = (createVertexBufferImpl GLContext.samplePersistent 1000 BufferUsage.Static ""
          false).buffer :=
  ⟨Or.inr ⟨Or.inl rfl, rfl⟩,
   createVertexBufferImpl_incompatible GLContext.samplePersistent 1000 BufferUsage.Static
     "persistent-orphan" false rfl rfl rfl (Or.inr ⟨Or.inl rfl, rfl⟩)⟩

/-- C23 (static buffers are never persistent): for every context, capacity, setting and
value of `warned`, the buffer that `createVertexBufferImpl` returns for Static usage is the
map-range buffer or the full-map buffer, so none of the three persistent kinds; and it is
the map-range buffer when range mapping is supported and the setting is empty. -/
theorem createVertexBufferImpl_static (ctx : GLContext) (capacity : Nat) (setting : String)
    (warned : Bool) :
    ((createVertexBufferImpl ctx capacity BufferUsage.Static setting warned).buffer
          = VertexBuffer.GLMapRangeVertexBuffer capacity BufferUsage.Static
        ∨ (createVertexBufferImpl ctx capacity BufferUsage.Static setting warned).buffer
          = VertexBuffer.GLVertexBuffer capacity BufferUsage.Static)
      ∧ (createVertexBufferImpl ctx capacity BufferUsage.Static setting warned).buffer.isPersistent
        = false
      ∧ (ctx.GLEW_ARB_map_buffer_range = true →
          (createVertexBufferImpl ctx capacity BufferUsage.Static "" warned).buffer
            = VertexBuffer.GLMapRangeVertexBuffer capacity BufferUsage.Static) := by
  have hc := createVertexBufferImpl_static_cases ctx capacity setting warned
  refine ⟨hc, ?_, ?_⟩
  · rcases hc with h | h <;> rw [h] <;> rfl
  · intro hrange
    rw [createVertexBufferImpl_empty]
    simp only [createVertexBufferImpl.ranged]
    split_ifs <;> simp_all

/-- Witness for C23: the sample context with persistent buffer storage supports range
mapping, so the empty setting gives the map-range buffer for Static usage. -/
theorem createVertexBufferImpl_static_witness :
    GLContext.samplePersistent.GLEW_ARB_map_buffer_range = true
      ∧ (createVertexBufferImpl GLContext.samplePersistent 1000 BufferUsage.Static ""
          false).buffer
        = VertexBuffer.GLMapRangeVertexBuffer 1000 BufferUsage.Static :=
  ⟨rfl,
   (createVertexBufferImpl_static GLContext.samplePersistent 1000 "" false).2.2 rfl⟩

/-- C24 (immediate-mode fallback): when `useVBOs` is false, `createVertexBufferTL`,
`createVertexBuffer` and `createVertexBuffer3` return `GLNoVertexBuffer` of the requested
capacity for every usage and every configuration, log nothing and leave the statics as they
were; the result does not depend on the configured setting.  `reinit` sets `useVBOs` to false
exactly in the Native Client and Emscripten builds. -/
theorem createVertexBuffer_immediate_mode (ctx : GLContext) (cfg : VideoConfig)
    (r : OpenGLRenderer) (capacity : Nat) (usage : BufferUsage) (w : WarnedStatics)
    (newStage : Nat → GLTextureStage) (h : r.useVBOs = false) :
    r.createVertexBufferTL ctx cfg capacity usage w
        = (VertexBuffer.GLNoVertexBuffer capacity, [], w)
      ∧ r.createVertexBuffer ctx cfg capacity usage w
        = (VertexBuffer.GLNoVertexBuffer capacity, [], w)
      ∧ r.createVertexBuffer3 ctx cfg capacity usage w
        = (VertexBuffer.GLNoVertexBuffer capacity, [], w)
      ∧ (r.reinit ctx cfg newStage).2.useVBOs = !ctx.emscripten := by
  refine ⟨?_, ?_, ?_, ?_⟩
  · simp [OpenGLRenderer.createVertexBufferTL, h]
  · simp [OpenGLRenderer.createVertexBuffer, h]
  · simp [OpenGLRenderer.createVertexBuffer3, h]
  · simp only [OpenGLRenderer.reinit, OpenGLRenderer.Clear, OpenGLRenderer.setMaxAnisotropy]
    split_ifs <;> rfl

/-- Witness for C24: the sample renderer with VBOs disabled and the unknown setting. -/
theorem createVertexBuffer_immediate_mode_witness :
    ({ OpenGLRenderer.sample with useVBOs := false } : OpenGLRenderer).useVBOs = false
      ∧ ({ OpenGLRenderer.sample with useVBOs := false } : OpenGLRenderer).createVertexBufferTL
          GLContext.sample VideoConfig.sampleBogus 1000 BufferUsage.Stream WarnedStatics.initial
        = (VertexBuffer.GLNoVertexBuffer 1000, [], WarnedStatics.initial) :=
  ⟨rfl,
   (createVertexBuffer_immediate_mode GLContext.sample VideoConfig.sampleBogus
     { OpenGLRenderer.sample with useVBOs := false } 1000 BufferUsage.Stream
     WarnedStatics.initial (fun _ => { dirty := false, pending := [] }) rfl).1⟩

/-! ## Lemmas on Clear and on the audio conversion -/

theorem Clear_calls_field (height : Int) (r : OpenGLRenderer) (bufferFlags : BufferFlags)
    (clearColor : Color) (clearDepth : GLfloat) (rects : List Rect) :
    ∀ c ∈ (r.Clear height bufferFlags clearColor clearDepth rects).1,
      c.field = none ∨ c = glDepthMask true := by
  intro c hc
  simp only [OpenGLRenderer.Clear, List.mem_append] at hc
  rcases hc with ((h | h) | h) | h
  · split_ifs at h <;> simp at h
    subst h; exact Or.inl rfl
  · split_ifs at h <;> simp at h
    exact Or.inr h
  · split_ifs at h <;> simp at h
    subst h; exact Or.inl rfl
  · split_ifs at h
    · simp only [List.mem_append, List.mem_singleton, List.mem_flatten, List.mem_map] at h
      rcases h with (h | ⟨l, ⟨rc, _, hl⟩, hcl⟩) | h
      · subst h; exact Or.inl rfl
      · subst hl
        simp only [List.mem_cons, List.mem_singleton, List.not_mem_nil, or_false] at hcl
        rcases hcl with h | h <;> subst h <;> exact Or.inl rfl
      · subst h; exact Or.inl rfl
    · simp only [List.mem_singleton] at h
      subst h; exact Or.inl rfl

theorem callsOf_of_field_none (F : StateField) (l : List GLcall)
    (h : ∀ c ∈ l, c.field = none) : callsOf F l = [] := by
  unfold callsOf
  refine List.filter_eq_nil_iff.2 fun c hc => ?_
  simp [h c hc]

theorem Clear_calls_eq (height : Int) (r : OpenGLRenderer) (bufferFlags : BufferFlags)
    (clearColor : Color) (clearDepth : GLfloat) (rects : List Rect) :
    (r.Clear height bufferFlags clearColor clearDepth rects).1
      = (if bufferFlags.ColorBuffer = true then [glClearColor clearColor] else [])
        ++ (if bufferFlags.DepthBuffer = true ∧ ¬ r.m_glstate.depthWrite = true then
              [glDepthMask true] else [])
        ++ (if bufferFlags.DepthBuffer = true then [glClearDepth clearDepth] else [])
        ++ (if rects.length ≠ 0 then
              [glEnable GL_SCISSOR_TEST]
              ++ (rects.map fun rc =>
                    [glScissor rc.left (wrapInt32 (height - rc.bottom)) rc.width rc.height,
                     glClear bufferFlags.ColorBuffer bufferFlags.DepthBuffer]).flatten
              ++ [glDisable GL_SCISSOR_TEST]
            else [glClear bufferFlags.ColorBuffer bufferFlags.DepthBuffer]) :=
  rfl

theorem Clear_buffers_field (height : Int) (color depth : Bool) (rects : List Rect) :
    ∀ c ∈ (if rects.length ≠ 0 then
              [glEnable GL_SCISSOR_TEST]
              ++ (rects.map fun rc =>
                    [glScissor rc.left (wrapInt32 (height - rc.bottom)) rc.width rc.height,
                     glClear color depth]).flatten
              ++ [glDisable GL_SCISSOR_TEST]
            else [glClear color depth]),
      c.field = none := by
  intro c h
  split_ifs at h
  · simp only [List.mem_append, List.mem_singleton, List.mem_flatten, List.mem_map] at h
    rcases h with (h | ⟨l, ⟨rc, _, hl⟩, hcl⟩) | h
    · subst h; rfl
    · subst hl
      simp only [List.mem_cons, List.mem_singleton, List.not_mem_nil, or_false] at hcl
      rcases hcl with h | h <;> subst h <;> rfl
    · subst h; rfl
  · simp only [List.mem_singleton] at h
    subst h; rfl

theorem callsOf_depthWrite_Clear (height : Int) (r : OpenGLRenderer)
    (bufferFlags : BufferFlags) (clearColor : Color) (clearDepth : GLfloat)
    (rects : List Rect) :
    callsOf StateField.depthWrite (r.Clear height bufferFlags clearColor clearDepth rects).1
      = if bufferFlags.DepthBuffer = true ∧ ¬ r.m_glstate.depthWrite = true then
          [glDepthMask true]
        else [] := by
  rw [Clear_calls_eq]
  simp only [callsOf_append,
    callsOf_of_field_none _ _ (Clear_buffers_field height _ _ rects), List.append_nil]
  have h1 : callsOf StateField.depthWrite
      (if bufferFlags.ColorBuffer = true then [glClearColor clearColor] else []) = [] := by
    split_ifs <;> simp [callsOf, GLcall.field]
  have h3 : callsOf StateField.depthWrite
      (if bufferFlags.DepthBuffer = true then [glClearDepth clearDepth] else []) = [] := by
    split_ifs <;> simp [callsOf, GLcall.field]
  rw [h1, h3]
  split_ifs <;> simp [callsOf, GLcall.field]

/-- The round trip through `unitsToBytes` and `bytesToUnits` for `UNIT_SAMPLES`, when no
product overflows, divides the sample count by the frequency. -/
theorem bytesToUnits_unitsToBytes_samples (bits : Nat) (floatMs : Nat → PCMFormat → Nat)
    (v : Nat) (_format : PCMFormat)
    (hc : 1 ≤ _format.channels) (hq : 8 ≤ _format.quality) (hf : 0 < _format.frequency)
    (h1 : v * _format.channels * (_format.quality >>> 3) < 2 ^ bits)
    (h2 : _format.frequency * _format.channels * (_format.quality >>> 3) < 2 ^ bits) :
    bytesToUnits bits floatMs
        (unitsToBytes bits floatMs v _format TimeUnit.UNIT_SAMPLES) _format
        TimeUnit.UNIT_SAMPLES
      = some (v / _format.frequency) := by
  have hq3 : 0 < _format.quality >>> 3 := by
    rw [Nat.shiftRight_eq_div_pow]
    exact Nat.div_pos (by simpa using hq) (by norm_num)
  have hm : 0 < _format.channels * (_format.quality >>> 3) := Nat.mul_pos hc hq3
  have hd : 0 < _format.frequency * _format.channels * (_format.quality >>> 3) := by
    rw [Nat.mul_assoc]; exact Nat.mul_pos hf hm
  simp only [bytesToUnits, unitsToBytes, Nat.mod_eq_of_lt h1, Nat.mod_eq_of_lt h2]
  rw [if_neg (Nat.pos_iff_ne_zero.1 hd), Nat.mul_assoc v, Nat.mul_assoc _format.frequency,
    Nat.mul_div_mul_right _ _ hm]

/-! ## The claims on Clear and on the audio conversion -/

/-- C27 (clear of the depth buffer with depth write off): when the applied depth write is
off, a `Clear` with the `DepthBuffer` flag emits `glDepthMask(GL_TRUE)` directly after the
optional `glClearColor`, so before any buffer clear, and no other depth mask call; it records
the applied depth write as on and leaves the requested state as it was, so that the next
`flushState` emits `glDepthMask(GL_FALSE)` exactly when the requested depth write is off.
When the applied depth write is on, `Clear` emits no depth mask call. -/
theorem Clear_depth_forces_depthWrite (height : Int) (cfg : VideoConfig) (r : OpenGLRenderer)
    (bufferFlags : BufferFlags) (clearColor : Color) (clearDepth : GLfloat)
    (rects : List Rect) :
    (r.m_glstate.depthWrite = false → bufferFlags.DepthBuffer = true →
        (∃ rest : List GLcall,
            (r.Clear height bufferFlags clearColor clearDepth rects).1
              = (if bufferFlags.ColorBuffer = true then [glClearColor clearColor] else [])
                ++ glDepthMask true :: rest)
          ∧ callsOf StateField.depthWrite
              (r.Clear height bufferFlags clearColor clearDepth rects).1 = [glDepthMask true]
          ∧ (r.Clear height bufferFlags clearColor clearDepth rects).2.m_glstate.depthWrite
            = true
          ∧ (r.Clear height bufferFlags clearColor clearDepth rects).2.m_state = r.m_state
          ∧ callsOf StateField.depthWrite
              ((r.Clear height bufferFlags clearColor clearDepth rects).2.flushState cfg).1
            = (if r.m_state.depthWrite = true then [] else [glDepthMask false]))
      ∧ (r.m_glstate.depthWrite = true →
          callsOf StateField.depthWrite
            (r.Clear height bufferFlags clearColor clearDepth rects).1 = []) := by
  constructor
  · intro hoff hflag
    have hm : bufferFlags.DepthBuffer = true ∧ ¬ r.m_glstate.depthWrite = true := by
      simp [hoff, hflag]
    refine ⟨?_, ?_, ?_, rfl, ?_⟩
    · refine ⟨(if bufferFlags.DepthBuffer = true then [glClearDepth clearDepth] else [])
          ++ (if rects.length ≠ 0 then
                [glEnable GL_SCISSOR_TEST]
                ++ (rects.map fun rc =>
                      [glScissor rc.left (wrapInt32 (height - rc.bottom)) rc.width rc.height,
                       glClear bufferFlags.ColorBuffer bufferFlags.DepthBuffer]).flatten
                ++ [glDisable GL_SCISSOR_TEST]
              else [glClear bufferFlags.ColorBuffer bufferFlags.DepthBuffer]), ?_⟩
      rw [Clear_calls_eq, if_pos hm]
      simp only [List.append_assoc, List.singleton_append, List.cons_append, List.nil_append]
    · rw [callsOf_depthWrite_Clear, if_pos hm]
    · simp [OpenGLRenderer.Clear, hm]
    · rw [callsOf_flushState]
      simp only [flushField, flushDepthWrite, OpenGLRenderer.Clear, if_pos hm]
      cases r.m_state.depthWrite <;> simp
  · intro hon
    rw [callsOf_depthWrite_Clear, if_neg (by simp [hon])]

/-- Witness for C27: the sample renderer with depth write off in both snapshots, and the
sample renderer itself for the case with depth write on. -/
theorem Clear_depth_forces_depthWrite_witness :
    OpenGLRenderer.sampleDepthWriteOff.m_glstate.depthWrite = false
      ∧ callsOf StateField.depthWrite
          (OpenGLRenderer.sampleDepthWriteOff.Clear 480
            { ColorBuffer := true, DepthBuffer := true } Color.none 1 []).1
        = [glDepthMask true]
      ∧ callsOf StateField.depthWrite
          ((OpenGLRenderer.sampleDepthWriteOff.Clear 480
            { ColorBuffer := true, DepthBuffer := true } Color.none 1 []).2.flushState
            VideoConfig.sample).1
        = (if OpenGLRenderer.sampleDepthWriteOff.m_state.depthWrite = true then []
          else [glDepthMask false])
      ∧ OpenGLRenderer.sample.m_glstate.depthWrite = true
      ∧ callsOf StateField.depthWrite
          (OpenGLRenderer.sample.Clear 480
            { ColorBuffer := true, DepthBuffer := true } Color.none 1 []).1 = [] :=
  ⟨rfl,
   ((Clear_depth_forces_depthWrite 480 VideoConfig.sample OpenGLRenderer.sampleDepthWriteOff
     { ColorBuffer := true, DepthBuffer := true } Color.none 1 []).1 rfl rfl).2.1,
   ((Clear_depth_forces_depthWrite 480 VideoConfig.sample OpenGLRenderer.sampleDepthWriteOff
     { ColorBuffer := true, DepthBuffer := true } Color.none 1 []).1 rfl rfl).2.2.2.2,
   rfl,
   (Clear_depth_forces_depthWrite 480 VideoConfig.sample OpenGLRenderer.sample
     { ColorBuffer := true, DepthBuffer := true } Color.none 1 []).2 rfl⟩

/-- C28 (audio sample and byte round trip): the code does not return the sample count.  For
the sample format (44100 Hz, 16 bits, stereo) and one sample, `unitsToBytes` gives
`1 * 2 * (16 / 8) = 4` bytes, and `bytesToUnits` of these 4 bytes gives 0 samples, not 1,
because its `UNIT_SAMPLES` case divides by the frequency as well; this holds for a `size_t`
of 32 and of 64 bits. -/
theorem audio_samples_roundtrip_fails :
    unitsToBytes 32 (fun _ _ => 0) 1 PCMFormat.sample TimeUnit.UNIT_SAMPLES = 1 * 2 * (16 / 8)
      ∧ bytesToUnits 32 (fun _ _ => 0)
          (unitsToBytes 32 (fun _ _ => 0) 1 PCMFormat.sample TimeUnit.UNIT_SAMPLES)
          PCMFormat.sample TimeUnit.UNIT_SAMPLES = some 0
      ∧ bytesToUnits 64 (fun _ _ => 0)
          (unitsToBytes 64 (fun _ _ => 0) 1 PCMFormat.sample TimeUnit.UNIT_SAMPLES)
          PCMFormat.sample TimeUnit.UNIT_SAMPLES = some 0
      ∧ bytesToUnits 32 (fun _ _ => 0)
          (unitsToBytes 32 (fun _ _ => 0) 1 PCMFormat.sample TimeUnit.UNIT_SAMPLES)
          PCMFormat.sample TimeUnit.UNIT_SAMPLES ≠ some 1 := by
  refine ⟨by decide, by decide, by decide, by decide⟩

/-! ## Lemmas on runs -/

theorem runCalls_append (en : GLenum → Bool) (l l' : List GLcall) :
    runCalls en (l ++ l') = runCalls (runCalls en l) l' := by
  induction l generalizing en with
  | nil => rfl
  | cons c rest ih => exact ih _

theorem lastCullFaceFrom_append (g : GLenum) (l l' : List GLcall) :
    lastCullFaceFrom g (l ++ l') = lastCullFaceFrom (lastCullFaceFrom g l) l' := by
  induction l generalizing g with
  | nil => rfl
  | cons c rest ih =>
    cases c <;> simp only [List.cons_append, lastCullFaceFrom] <;> exact ih _

theorem callsOf_of_untouched (l : List GLcall)
    (h : ∀ c ∈ l, c.touchesCullOrColorKey = false) :
    callsOf StateField.cull l = [] ∧ callsOf StateField.colorKey l = [] := by
  constructor <;> unfold callsOf <;> refine List.filter_eq_nil_iff.2 fun c hc => ?_
  · have := h c hc
    simp only [GLcall.touchesCullOrColorKey, Bool.or_eq_false_iff, beq_eq_false_iff_ne] at this
    simpa using this.1
  · have := h c hc
    simp only [GLcall.touchesCullOrColorKey, Bool.or_eq_false_iff, beq_eq_false_iff_ne] at this
    simpa using this.2

theorem lastCullFaceFrom_callsOf_cull (g : GLenum) (l : List GLcall) :
    lastCullFaceFrom g l = lastCullFaceFrom g (callsOf StateField.cull l) := by
  induction l generalizing g with
  | nil => rfl
  | cons c rest ih =>
    by_cases hc : c.field = some StateField.cull
    · have hcons : callsOf StateField.cull (c :: rest) = c :: callsOf StateField.cull rest := by
        simp [callsOf, hc]
      rw [hcons]
      cases c <;> simp only [lastCullFaceFrom] <;> exact ih _
    · have hcons : callsOf StateField.cull (c :: rest) = callsOf StateField.cull rest := by
        simp [callsOf, hc]
      rw [hcons, ← ih]
      cases c <;> first | rfl | (exfalso; exact hc rfl)

theorem runCalls_untouched (en : GLenum → Bool) (l : List GLcall) (cap : GLenum)
    (hcap : cap = GL_SAMPLE_ALPHA_TO_COVERAGE ∨ cap = GL_ALPHA_TEST)
    (h : ∀ c ∈ l, c.touchesCullOrColorKey = false) : runCalls en l cap = en cap := by
  rw [runCalls_callsOf_colorKey en l cap hcap, (callsOf_of_untouched l h).2]
  rfl

theorem lastCullFaceFrom_untouched (g : GLenum) (l : List GLcall)
    (h : ∀ c ∈ l, c.touchesCullOrColorKey = false) : lastCullFaceFrom g l = g := by
  rw [lastCullFaceFrom_callsOf_cull, (callsOf_of_untouched l h).1]
  rfl

theorem Clear_untouched (height : Int) (r : OpenGLRenderer) (bufferFlags : BufferFlags)
    (clearColor : Color) (clearDepth : GLfloat) (rects : List Rect) :
    ∀ c ∈ (r.Clear height bufferFlags clearColor clearDepth rects).1,
      c.touchesCullOrColorKey = false := by
  intro c hc
  rcases Clear_calls_field height r bufferFlags clearColor clearDepth rects c hc with h | h
  · simp [GLcall.touchesCullOrColorKey, h]
  · subst h; rfl

theorem setMaxAnisotropy_untouched (r : OpenGLRenderer) (value : GLfloat) :
    ∀ c ∈ (r.setMaxAnisotropy value).1, c.touchesCullOrColorKey = false := by
  intro c hc
  simp only [OpenGLRenderer.setMaxAnisotropy] at hc
  split_ifs at hc
  · simp at hc
  · simp only [List.mem_map] at hc
    obtain ⟨t, _, rfl⟩ := hc
    rfl

theorem transform_viewport_untouched (height : Int) (r : OpenGLRenderer) (rect : Rect) :
    (∀ c ∈ r.enableTransform.1, c.touchesCullOrColorKey = false)
      ∧ (∀ c ∈ r.disableTransform.1, c.touchesCullOrColorKey = false)
      ∧ (∀ c ∈ (r.SetViewport height rect).1, c.touchesCullOrColorKey = false)
      ∧ (∀ c ∈ (r.SetScissor height rect).1, c.touchesCullOrColorKey = false) := by
  refine ⟨?_, ?_, ?_, ?_⟩
  · simp only [OpenGLRenderer.enableTransform]
    split_ifs <;> simp [GLcall.touchesCullOrColorKey, GLcall.field]
  · simp only [OpenGLRenderer.disableTransform]
    split_ifs <;> simp [GLcall.touchesCullOrColorKey, GLcall.field]
  · simp only [OpenGLRenderer.SetViewport]
    split_ifs <;> simp [GLcall.touchesCullOrColorKey, GLcall.field]
  · simp only [OpenGLRenderer.SetScissor]
    split_ifs <;> simp [GLcall.touchesCullOrColorKey, GLcall.field]

theorem reinit_untouched (ctx : GLContext) (cfg : VideoConfig)
    (newStage : Nat → GLTextureStage) (r : OpenGLRenderer) :
    ∀ c ∈ (r.reinit ctx cfg newStage).1, c.touchesCullOrColorKey = false := by
  intro c hc
  simp only [OpenGLRenderer.reinit, List.mem_append] at hc
  rcases hc with ((h | h) | h) | h
  · split_ifs at h <;> simp at h <;> (subst h; rfl)
  · simp only [List.mem_cons, List.mem_singleton, List.not_mem_nil, or_false] at h
    rcases h with h | h | h | h | h | h | h | h <;> subst h <;> rfl
  · exact Clear_untouched _ _ _ _ _ _ c h
  · split_ifs at h <;>
      first
      | exact setMaxAnisotropy_untouched _ _ c h
      | (simp at h)

theorem reinit_state (ctx : GLContext) (cfg : VideoConfig)
    (newStage : Nat → GLTextureStage) (r : OpenGLRenderer) :
    (r.reinit ctx cfg newStage).2.m_glstate.colorKey = false
      ∧ (r.reinit ctx cfg newStage).2.m_glcull = GL_BACK := by
  simp only [OpenGLRenderer.reinit, OpenGLRenderer.Clear, OpenGLRenderer.setMaxAnisotropy]
  split_ifs <;> simp

theorem flushCull_last (gl st : RenderState) (g : GLenum) :
    lastCullFaceFrom g (flushCull gl st g).1 = (flushCull gl st g).2 := by
  simp only [flushCull]
  split_ifs <;> simp [lastCullFaceFrom]

theorem flushState_glcull (cfg : VideoConfig) (r : OpenGLRenderer) :
    (r.flushState cfg).2.m_glcull = lastCullFaceFrom r.m_glcull (r.flushState cfg).1 := by
  rw [lastCullFaceFrom_callsOf_cull, callsOf_flushState]
  simp only [flushField, flushCull_last]
  by_cases h : r.m_glstate = r.m_state
  · simp [OpenGLRenderer.flushState, h, flushCull]
  · simp [OpenGLRenderer.flushState, h]

theorem flushColorKey_match (useA2C : Bool) (gl st : RenderState) (en : GLenum → Bool)
    (hA : en GL_SAMPLE_ALPHA_TO_COVERAGE = (gl.colorKey && useA2C && !gl.isBlendEnabled))
    (hT : en GL_ALPHA_TEST = (gl.colorKey && !(useA2C && !gl.isBlendEnabled))) :
    runCalls en (flushColorKey useA2C gl st) GL_SAMPLE_ALPHA_TO_COVERAGE
        = (st.colorKey && useA2C && !st.isBlendEnabled)
      ∧ runCalls en (flushColorKey useA2C gl st) GL_ALPHA_TEST
        = (st.colorKey && !(useA2C && !st.isBlendEnabled)) := by
  simp only [flushColorKey]
  generalize gl.isBlendEnabled = gb at *
  generalize st.isBlendEnabled = sb at *
  generalize gl.colorKey = gk at *
  generalize st.colorKey = sk at *
  cases gb <;> cases sb <;> cases gk <;> cases sk <;> cases useA2C
    <;> simp [runCalls, GLcall.applyTo] at hA hT ⊢ <;> simp [hA, hT]

theorem mechanismsMatch_flushState (cfg : VideoConfig) (r : OpenGLRenderer)
    (en : GLenum → Bool) (h : mechanismsMatch cfg.colorkeyAlphaToCoverage r en) :
    mechanismsMatch cfg.colorkeyAlphaToCoverage (r.flushState cfg).2
      (runCalls en (r.flushState cfg).1) := by
  have hm := flushColorKey_match (r.m_hasMSAA && cfg.colorkeyAlphaToCoverage)
    r.m_glstate r.m_state en h.1 h.2
  unfold mechanismsMatch
  rw [runCalls_callsOf_colorKey en _ _ (Or.inl rfl),
    runCalls_callsOf_colorKey en _ _ (Or.inr rfl), callsOf_flushState, flushState_glstate]
  exact hm

theorem SetAntialiasing_cases (cfg : VideoConfig) (r : OpenGLRenderer) (enable : Bool) :
    r.SetAntialiasing cfg enable = ([], r)
      ∨ (r.m_glstate.colorKey = false
          ∧ r.SetAntialiasing cfg enable
            = ([if enable then glEnable GL_MULTISAMPLE else glDisable GL_MULTISAMPLE],
               { r with m_hasMSAA := enable }))
      ∨ (r.m_glstate.colorKey = true
          ∧ r.SetAntialiasing cfg enable
            = ((OpenGLRenderer.flushState cfg
                  { r with m_state := { r.m_state with colorKey := false } }).1
                ++ [if enable then glEnable GL_MULTISAMPLE else glDisable GL_MULTISAMPLE],
               { (OpenGLRenderer.flushState cfg
                    { r with m_state := { r.m_state with colorKey := false } }).2 with
                 m_state :=
                   { (OpenGLRenderer.flushState cfg
                        { r with m_state := { r.m_state with colorKey := false } }).2.m_state
                     with colorKey := r.m_state.colorKey }
                 m_hasMSAA := enable })) := by
  unfold OpenGLRenderer.SetAntialiasing
  by_cases h1 : r.m_MSAALevel ≤ 0
  · exact Or.inl (by rw [if_pos h1])
  · by_cases h2 : enable = true ∧ ¬ cfg.antialiasing = true
    · exact Or.inl (by rw [if_neg h1, if_pos h2])
    · by_cases h3 : enable = r.m_hasMSAA
      · exact Or.inl (by rw [if_neg h1, if_neg h2, if_pos h3])
      · rw [if_neg h1, if_neg h2, if_neg h3]
        by_cases hk : r.m_glstate.colorKey = true
        · exact Or.inr (Or.inr ⟨hk, by simp only [hk, if_true]⟩)
        · have hk' : r.m_glstate.colorKey = false := by simpa using hk
          exact Or.inr (Or.inl ⟨hk', by simp [hk']⟩)

theorem multisample_untouched (enable : Bool) :
    ∀ c ∈ [if enable then glEnable GL_MULTISAMPLE else glDisable GL_MULTISAMPLE],
      c.touchesCullOrColorKey = false := by
  intro c hc
  simp only [List.mem_singleton] at hc
  subst hc
  cases enable <;> rfl

theorem other_members_frame (height : Int) (r : OpenGLRenderer) (rect : Rect) (m : Mat4)
    (value : GLfloat) :
    ((r.setMaxAnisotropy value).2.m_glstate = r.m_glstate
        ∧ (r.setMaxAnisotropy value).2.m_hasMSAA = r.m_hasMSAA
        ∧ (r.setMaxAnisotropy value).2.m_glcull = r.m_glcull)
      ∧ (r.enableTransform.2.m_glstate = r.m_glstate
        ∧ r.enableTransform.2.m_hasMSAA = r.m_hasMSAA
        ∧ r.enableTransform.2.m_glcull = r.m_glcull)
      ∧ (r.disableTransform.2.m_glstate = r.m_glstate
        ∧ r.disableTransform.2.m_hasMSAA = r.m_hasMSAA
        ∧ r.disableTransform.2.m_glcull = r.m_glcull)
      ∧ ((r.SetViewMatrix m).m_glstate = r.m_glstate
        ∧ (r.SetViewMatrix m).m_hasMSAA = r.m_hasMSAA
        ∧ (r.SetViewMatrix m).m_glcull = r.m_glcull)
      ∧ ((r.SetProjectionMatrix m).m_glstate = r.m_glstate
        ∧ (r.SetProjectionMatrix m).m_hasMSAA = r.m_hasMSAA
        ∧ (r.SetProjectionMatrix m).m_glcull = r.m_glcull)
      ∧ ((r.SetViewport height rect).2.m_glstate = r.m_glstate
        ∧ (r.SetViewport height rect).2.m_hasMSAA = r.m_hasMSAA
        ∧ (r.SetViewport height rect).2.m_glcull = r.m_glcull)
      ∧ (r.SetScissor height rect).2 = r := by
  refine ⟨?_, ?_, ?_, ?_, ?_, ?_, ?_⟩
  · simp only [OpenGLRenderer.setMaxAnisotropy]; split_ifs <;> exact ⟨rfl, rfl, rfl⟩
  · simp only [OpenGLRenderer.enableTransform]; split_ifs <;> exact ⟨rfl, rfl, rfl⟩
  · simp only [OpenGLRenderer.disableTransform]; split_ifs <;> exact ⟨rfl, rfl, rfl⟩
  · simp only [OpenGLRenderer.SetViewMatrix]; split_ifs <;> exact ⟨rfl, rfl, rfl⟩
  · simp only [OpenGLRenderer.SetProjectionMatrix]; split_ifs <;> exact ⟨rfl, rfl, rfl⟩
  · simp only [OpenGLRenderer.SetViewport]; split_ifs <;> exact ⟨rfl, rfl, rfl⟩
  · simp only [OpenGLRenderer.SetScissor]; split_ifs <;> rfl

theorem Clear_frame (height : Int) (r : OpenGLRenderer) (bufferFlags : BufferFlags)
    (clearColor : Color) (clearDepth : GLfloat) (rects : List Rect) :
    (r.Clear height bufferFlags clearColor clearDepth rects).2.m_glstate.colorKey
        = r.m_glstate.colorKey
      ∧ (r.Clear height bufferFlags clearColor clearDepth rects).2.m_glstate.isBlendEnabled
        = r.m_glstate.isBlendEnabled
      ∧ (r.Clear height bufferFlags clearColor clearDepth rects).2.m_hasMSAA = r.m_hasMSAA
      ∧ (r.Clear height bufferFlags clearColor clearDepth rects).2.m_glcull = r.m_glcull := by
  refine ⟨?_, ?_, ?_, ?_⟩ <;> simp only [OpenGLRenderer.Clear] <;> split_ifs <;> rfl

theorem mechanismsMatch_congr (a2c : Bool) (r r' : OpenGLRenderer) (en en' : GLenum → Bool)
    (h1 : r'.m_glstate.colorKey = r.m_glstate.colorKey)
    (h2 : r'.m_glstate.isBlendEnabled = r.m_glstate.isBlendEnabled)
    (h3 : r'.m_hasMSAA = r.m_hasMSAA)
    (h4 : en' GL_SAMPLE_ALPHA_TO_COVERAGE = en GL_SAMPLE_ALPHA_TO_COVERAGE)
    (h5 : en' GL_ALPHA_TEST = en GL_ALPHA_TEST)
    (h : mechanismsMatch a2c r en) : mechanismsMatch a2c r' en' := by
  unfold mechanismsMatch at h ⊢
  rw [h1, h2, h3, h4, h5]
  exact h

theorem mechanismsMatch_of_reachableWith (a2c : Bool) (r : OpenGLRenderer)
    (t : List GLcall) (en0 : GLenum → Bool) (h : ReachableWith a2c r t)
    (hA : en0 GL_SAMPLE_ALPHA_TO_COVERAGE = false) (hT : en0 GL_ALPHA_TEST = false) :
    mechanismsMatch a2c r (runCalls en0 t) := by
  have hstep : ∀ (q q' : OpenGLRenderer) (s l : List GLcall),
      q'.m_glstate.colorKey = q.m_glstate.colorKey →
      q'.m_glstate.isBlendEnabled = q.m_glstate.isBlendEnabled →
      q'.m_hasMSAA = q.m_hasMSAA →
      (∀ c ∈ l, c.touchesCullOrColorKey = false) →
      mechanismsMatch a2c q (runCalls en0 s) →
      mechanismsMatch a2c q' (runCalls en0 (s ++ l)) := by
    intro q q' s l h1 h2 h3 hl hq
    rw [runCalls_append]
    exact mechanismsMatch_congr a2c q q' _ _ h1 h2 h3
      (runCalls_untouched _ l _ (Or.inl rfl) hl) (runCalls_untouched _ l _ (Or.inr rfl) hl) hq
  induction h with
  | reinit ctx cfg newStage r0 =>
    unfold mechanismsMatch
    rw [runCalls_untouched _ _ _ (Or.inl rfl) (reinit_untouched ctx cfg newStage r0),
      runCalls_untouched _ _ _ (Or.inr rfl) (reinit_untouched ctx cfg newStage r0),
      (reinit_state ctx cfg newStage r0).1, hA, hT]
    simp
  | setter r t s _ ih => exact ih
  | flushState cfg r t hcfg _ ih =>
    rw [runCalls_append]
    subst hcfg
    exact mechanismsMatch_flushState cfg r _ ih
  | SetAntialiasing cfg r t enable hcfg _ ih =>
    rcases SetAntialiasing_cases cfg r enable with h | ⟨hk, h⟩ | ⟨hk, h⟩
    · rw [h]
      simpa using ih
    · rw [h, runCalls_append]
      unfold mechanismsMatch at ih ⊢
      rw [runCalls_untouched _ _ _ (Or.inl rfl) (multisample_untouched enable),
        runCalls_untouched _ _ _ (Or.inr rfl) (multisample_untouched enable), ih.1, ih.2]
      simp [hk]
    · rw [h, runCalls_append, runCalls_append]
      subst hcfg
      have hf := mechanismsMatch_flushState cfg
        { r with m_state := { r.m_state with colorKey := false } } _ ih
      have hg := flushState_glstate cfg
        { r with m_state := { r.m_state with colorKey := false } }
      unfold mechanismsMatch at hf ⊢
      rw [runCalls_untouched _ _ _ (Or.inl rfl) (multisample_untouched enable),
        runCalls_untouched _ _ _ (Or.inr rfl) (multisample_untouched enable), hf.1, hf.2]
      simp only [hg]
      simp
  | Clear height r t bufferFlags clearColor clearDepth rects _ ih =>
    have hf := Clear_frame height r bufferFlags clearColor clearDepth rects
    exact hstep r _ t _ hf.1 hf.2.1 hf.2.2.1
      (Clear_untouched height r bufferFlags clearColor clearDepth rects) ih
  | setMaxAnisotropy r t value _ ih =>
    have hf := (other_members_frame 0 r Rect.sample Mat4.sample value).1
    exact hstep r _ t _ (by rw [hf.1]) (by rw [hf.1]) hf.2.1
      (setMaxAnisotropy_untouched r value) ih
  | enableTransform r t _ ih =>
    have hf := (other_members_frame 0 r Rect.sample Mat4.sample 0).2.1
    exact hstep r _ t _ (by rw [hf.1]) (by rw [hf.1]) hf.2.1
      (transform_viewport_untouched 0 r Rect.sample).1 ih
  | disableTransform r t _ ih =>
    have hf := (other_members_frame 0 r Rect.sample Mat4.sample 0).2.2.1
    exact hstep r _ t _ (by rw [hf.1]) (by rw [hf.1]) hf.2.1
      (transform_viewport_untouched 0 r Rect.sample).2.1 ih
  | SetViewMatrix r t matView _ ih =>
    have hf := (other_members_frame 0 r Rect.sample matView 0).2.2.2.1
    exact mechanismsMatch_congr a2c r _ _ _ (by rw [hf.1]) (by rw [hf.1]) hf.2.1 rfl rfl ih
  | SetProjectionMatrix r t matProj _ ih =>
    have hf := (other_members_frame 0 r Rect.sample matProj 0).2.2.2.2.1
    exact mechanismsMatch_congr a2c r _ _ _ (by rw [hf.1]) (by rw [hf.1]) hf.2.1 rfl rfl ih
  | SetViewport height r t _viewport _ ih =>
    have hf := (other_members_frame height r _viewport Mat4.sample 0).2.2.2.2.2.1
    exact hstep r _ t _ (by rw [hf.1]) (by rw [hf.1]) hf.2.1
      (transform_viewport_untouched height r _viewport).2.2.1 ih
  | SetScissor height r t rect _ ih =>
    have hf := (other_members_frame height r rect Mat4.sample 0).2.2.2.2.2.2
    exact hstep r _ t _ (by rw [hf]) (by rw [hf]) (by rw [hf])
      (transform_viewport_untouched height r rect).2.2.2 ih

theorem reachable_of_reachableWith (a2c : Bool) (r : OpenGLRenderer) (t : List GLcall)
    (h : ReachableWith a2c r t) : Reachable r := by
  induction h with
  | reinit ctx cfg newStage r0 => exact Reachable.reinit ctx cfg newStage r0
  | setter r t s _ ih => exact Reachable.setter r s ih
  | flushState cfg r t _ _ ih => exact Reachable.flushState cfg r ih
  | SetAntialiasing cfg r t enable _ _ ih => exact Reachable.SetAntialiasing cfg r enable ih
  | Clear height r t bufferFlags clearColor clearDepth rects _ ih =>
    exact Reachable.Clear height r bufferFlags clearColor clearDepth rects ih
  | setMaxAnisotropy r t value _ ih => exact Reachable.setMaxAnisotropy r value ih
  | enableTransform r t _ ih => exact Reachable.enableTransform r ih
  | disableTransform r t _ ih => exact Reachable.disableTransform r ih
  | SetViewMatrix r t matView _ ih => exact Reachable.SetViewMatrix r matView ih
  | SetProjectionMatrix r t matProj _ ih => exact Reachable.SetProjectionMatrix r matProj ih
  | SetViewport height r t _viewport _ ih => exact Reachable.SetViewport height r _viewport ih
  | SetScissor height r t rect _ ih =>
    rw [(other_members_frame height r rect Mat4.sample 0).2.2.2.2.2.2]
    exact ih

theorem glcull_of_reachableWith (a2c : Bool) (r : OpenGLRenderer) (t : List GLcall)
    (h : ReachableWith a2c r t) : r.m_glcull = lastCullFaceFrom GL_BACK t := by
  have hstep : ∀ (q q' : OpenGLRenderer) (s l : List GLcall),
      q'.m_glcull = q.m_glcull → (∀ c ∈ l, c.touchesCullOrColorKey = false) →
      q.m_glcull = lastCullFaceFrom GL_BACK s →
      q'.m_glcull = lastCullFaceFrom GL_BACK (s ++ l) := by
    intro q q' s l h1 hl hq
    rw [lastCullFaceFrom_append, lastCullFaceFrom_untouched _ l hl, h1, hq]
  induction h with
  | reinit ctx cfg newStage r0 =>
    rw [lastCullFaceFrom_untouched _ _ (reinit_untouched ctx cfg newStage r0),
      (reinit_state ctx cfg newStage r0).2]
  | setter r t s _ ih => exact ih
  | flushState cfg r t _ _ ih =>
    rw [lastCullFaceFrom_append, ← ih]
    exact flushState_glcull cfg r
  | SetAntialiasing cfg r t enable _ _ ih =>
    rcases SetAntialiasing_cases cfg r enable with h | ⟨_, h⟩ | ⟨_, h⟩
    · rw [h]
      simpa using ih
    · rw [h]
      exact hstep r _ t _ rfl (multisample_untouched enable) ih
    · rw [h, lastCullFaceFrom_append, lastCullFaceFrom_append,
        lastCullFaceFrom_untouched _ _ (multisample_untouched enable), ← ih]
      exact flushState_glcull cfg { r with m_state := { r.m_state with colorKey := false } }
  | Clear height r t bufferFlags clearColor clearDepth rects _ ih =>
    exact hstep r _ t _ (Clear_frame height r bufferFlags clearColor clearDepth rects).2.2.2
      (Clear_untouched height r bufferFlags clearColor clearDepth rects) ih
  | setMaxAnisotropy r t value _ ih =>
    exact hstep r _ t _ (other_members_frame 0 r Rect.sample Mat4.sample value).1.2.2
      (setMaxAnisotropy_untouched r value) ih
  | enableTransform r t _ ih =>
    exact hstep r _ t _ (other_members_frame 0 r Rect.sample Mat4.sample 0).2.1.2.2
      (transform_viewport_untouched 0 r Rect.sample).1 ih
  | disableTransform r t _ ih =>
    exact hstep r _ t _ (other_members_frame 0 r Rect.sample Mat4.sample 0).2.2.1.2.2
      (transform_viewport_untouched 0 r Rect.sample).2.1 ih
  | SetViewMatrix r t matView _ ih =>
    rw [(other_members_frame 0 r Rect.sample matView 0).2.2.2.1.2.2]
    exact ih
  | SetProjectionMatrix r t matProj _ ih =>
    rw [(other_members_frame 0 r Rect.sample matProj 0).2.2.2.2.1.2.2]
    exact ih
  | SetViewport height r t _viewport _ ih =>
    exact hstep r _ t _ (other_members_frame height r _viewport Mat4.sample 0).2.2.2.2.2.1.2.2
      (transform_viewport_untouched height r _viewport).2.2.1 ih
  | SetScissor height r t rect _ ih =>
    exact hstep r _ t _
      (by rw [(other_members_frame height r rect Mat4.sample 0).2.2.2.2.2.2])
      (transform_viewport_untouched height r rect).2.2.2 ih

/-! ## The claims on the invariants of runs -/

/-- C25 (color key mechanism invariant): take any run that starts with `reinit` on a driver
in which alpha-to-coverage and the alpha test are disabled and goes on with state setters,
`flushState`, `SetAntialiasing` and the other members, the alpha-to-coverage option being
held fixed.  In every state of the run, so after each `flushState`, the driver has
alpha-to-coverage enabled exactly when the applied color key is on, multisampling with the
option is active and the applied blending is off, and the alpha test exactly when the applied
color key is on and alpha-to-coverage is not enabled; so exactly one of the two is enabled
when the applied color key is on, and neither when it is off. -/
theorem colorKey_mechanism_invariant (a2c : Bool) (r : OpenGLRenderer) (t : List GLcall)
    (en0 : GLenum → Bool) (h : ReachableWith a2c r t)
    (hA : en0 GL_SAMPLE_ALPHA_TO_COVERAGE = false) (hT : en0 GL_ALPHA_TEST = false) :
    runCalls en0 t GL_SAMPLE_ALPHA_TO_COVERAGE
        = (r.m_glstate.colorKey && (r.m_hasMSAA && a2c) && !r.m_glstate.isBlendEnabled)
      ∧ runCalls en0 t GL_ALPHA_TEST
        = (r.m_glstate.colorKey && !runCalls en0 t GL_SAMPLE_ALPHA_TO_COVERAGE)
      ∧ (r.m_glstate.colorKey = true →
          (runCalls en0 t GL_SAMPLE_ALPHA_TO_COVERAGE != runCalls en0 t GL_ALPHA_TEST) = true)
      ∧ (r.m_glstate.colorKey = false →
          runCalls en0 t GL_SAMPLE_ALPHA_TO_COVERAGE = false
            ∧ runCalls en0 t GL_ALPHA_TEST = false) := by
  have hm := mechanismsMatch_of_reachableWith a2c r t en0 h hA hT
  unfold mechanismsMatch at hm
  rw [hm.1, hm.2]
  cases r.m_glstate.colorKey <;> cases (r.m_hasMSAA && a2c)
    <;> cases r.m_glstate.isBlendEnabled <;> simp

/-- Witness for C25: the sample run with multisampling switched on and color key flushed,
from a driver with no capability enabled. -/
theorem colorKey_mechanism_invariant_witness :
    ReachableWith true OpenGLRenderer.sampleRunColorKey.2 OpenGLRenderer.sampleRunColorKey.1
      ∧ OpenGLRenderer.sampleRunColorKey.2.m_glstate.colorKey = true
      ∧ runCalls (driverWith []) OpenGLRenderer.sampleRunColorKey.1
          GL_SAMPLE_ALPHA_TO_COVERAGE
        = (OpenGLRenderer.sampleRunColorKey.2.m_glstate.colorKey
            && (OpenGLRenderer.sampleRunColorKey.2.m_hasMSAA && true)
            && !OpenGLRenderer.sampleRunColorKey.2.m_glstate.isBlendEnabled)
      ∧ runCalls (driverWith []) OpenGLRenderer.sampleRunColorKey.1 GL_ALPHA_TEST
        = (OpenGLRenderer.sampleRunColorKey.2.m_glstate.colorKey
            && !runCalls (driverWith []) OpenGLRenderer.sampleRunColorKey.1
                GL_SAMPLE_ALPHA_TO_COVERAGE) :=
  ⟨ReachableWith.flushState _ _ _ rfl
      (ReachableWith.setter _ _ _
        (ReachableWith.SetAntialiasing _ _ _ _ rfl (ReachableWith.reinit _ _ _ _))),
   by decide,
   (colorKey_mechanism_invariant true OpenGLRenderer.sampleRunColorKey.2
     OpenGLRenderer.sampleRunColorKey.1 (driverWith [])
     (ReachableWith.flushState _ _ _ rfl
       (ReachableWith.setter _ _ _
         (ReachableWith.SetAntialiasing _ _ _ _ rfl (ReachableWith.reinit _ _ _ _))))
     rfl rfl).1,
   (colorKey_mechanism_invariant true OpenGLRenderer.sampleRunColorKey.2
     OpenGLRenderer.sampleRunColorKey.1 (driverWith [])
     (ReachableWith.flushState _ _ _ rfl
       (ReachableWith.setter _ _ _
         (ReachableWith.SetAntialiasing _ _ _ _ rfl (ReachableWith.reinit _ _ _ _))))
     rfl rfl).2.1⟩

/-- C26 (cull direction cache invariant): in every state of a run that starts with `reinit`
and goes on with state setters, `flushState` and the other members, the cached direction
`m_glcull` is the argument of the most recent `glCullFace` call of the run, and `GL_BACK`
when the run has none; and it is `GL_BACK` whenever the applied cull mode is `CullCW` and
`GL_FRONT` whenever the applied cull mode is the other culling mode. -/
theorem cull_direction_cache_invariant (a2c : Bool) (r : OpenGLRenderer) (t : List GLcall)
    (h : ReachableWith a2c r t) :
    r.m_glcull = lastCullFaceFrom GL_BACK t
      ∧ (r.m_glstate.cull = CullCW → r.m_glcull = GL_BACK)
      ∧ (r.m_glstate.cull = CullCCW → r.m_glcull = GL_FRONT) := by
  have hc := cull_cache_of_reachable r (reachable_of_reachableWith a2c r t h)
  refine ⟨glcull_of_reachableWith a2c r t h, fun hcw => ?_, fun hccw => ?_⟩
  · rw [hc (by rw [hcw]; decide), hcw]; rfl
  · rw [hc (by rw [hccw]; decide), hccw]; rfl

/-- Witness for C26: the sample run with counter-clockwise culling flushed; the cache holds
`GL_FRONT`, the argument of the one `glCullFace` call of the run. -/
theorem cull_direction_cache_invariant_witness :
    ReachableWith true OpenGLRenderer.sampleRunCull.2 OpenGLRenderer.sampleRunCull.1
      ∧ OpenGLRenderer.sampleRunCull.2.m_glstate.cull = CullCCW
      ∧ OpenGLRenderer.sampleRunCull.2.m_glcull
        = lastCullFaceFrom GL_BACK OpenGLRenderer.sampleRunCull.1
      ∧ OpenGLRenderer.sampleRunCull.2.m_glcull = GL_FRONT :=
  ⟨ReachableWith.flushState _ _ _ rfl
      (ReachableWith.setter _ _ _ (ReachableWith.reinit _ _ _ _)),
   by decide,
   (cull_direction_cache_invariant true OpenGLRenderer.sampleRunCull.2
     OpenGLRenderer.sampleRunCull.1
     (ReachableWith.flushState _ _ _ rfl
       (ReachableWith.setter _ _ _ (ReachableWith.reinit _ _ _ _)))).1,
   (cull_direction_cache_invariant true OpenGLRenderer.sampleRunCull.2
     OpenGLRenderer.sampleRunCull.1
     (ReachableWith.flushState _ _ _ rfl
       (ReachableWith.setter _ _ _ (ReachableWith.reinit _ _ _ _)))).2.2 (by decide)⟩

/-! ## The claims on the coordinate conversion and on the clear sequence -/

theorem wrapInt32_of_inRange (x : Int) (h1 : -2147483648 ≤ x) (h2 : x < 2147483648) :
    wrapInt32 x = x := by
  unfold wrapInt32
  omega

/-- C16 (top-left to bottom-left conversion): for every window height `H` and rectangle, a
`SetViewport` with a changed rectangle emits exactly the call
`glViewport(left, H - bottom, width(), height())`, where `H - bottom`, `width() = right - left`
and `height() = bottom - top` are the values of these 32 bit `int` expressions; a
`SetScissor` with a valid rectangle enables the scissor test and then emits `glScissor` with
the same four arguments; a `SetScissor` with an invalid rectangle only disables the scissor
test.  A 32 bit expression whose exact result lies between `-2 ^ 31` and `2 ^ 31 - 1` has
that exact result as its value. -/
theorem viewport_scissor_conversion (H : Int) (r : OpenGLRenderer) (rect : Rect) :
    (rect ≠ r.viewport →
        (r.SetViewport H rect).1
          = [glViewport rect.left (wrapInt32 (H - rect.bottom))
              (wrapInt32 (rect.right - rect.left)) (wrapInt32 (rect.bottom - rect.top))])
      ∧ (rect.isValid = true →
        (r.SetScissor H rect).1
          = [glEnable GL_SCISSOR_TEST,
             glScissor rect.left (wrapInt32 (H - rect.bottom))
              (wrapInt32 (rect.right - rect.left)) (wrapInt32 (rect.bottom - rect.top))])
      ∧ (rect.isValid = false → (r.SetScissor H rect).1 = [glDisable GL_SCISSOR_TEST])
      ∧ (∀ x : Int, -2147483648 ≤ x → x < 2147483648 → wrapInt32 x = x) := by
  refine ⟨fun h => ?_, fun h => ?_, fun h => ?_, wrapInt32_of_inRange⟩
  · simp [OpenGLRenderer.SetViewport, h, Rect.width, Rect.height]
  · simp [OpenGLRenderer.SetScissor, h, Rect.width, Rect.height]
  · simp [OpenGLRenderer.SetScissor, h]

/-- Witness for C16: the sample rectangle in a window of height 480; the rectangle far up,
for which `480 - bottom` wraps to `-2147483169`; an empty rectangle for the invalid case;
and the value 220 of `480 - 260`. -/
theorem viewport_scissor_conversion_witness :
    (OpenGLRenderer.sample.SetViewport 480 Rect.sample).1 = [glViewport 10 220 320 240]
      ∧ (OpenGLRenderer.sample.SetViewport 480 Rect.sampleFar).1
        = [glViewport 0 (-2147483169) 10 1]
      ∧ (OpenGLRenderer.sample.SetScissor 480 Rect.sample).1
        = [glEnable GL_SCISSOR_TEST, glScissor 10 220 320 240]
      ∧ (OpenGLRenderer.sample.SetScissor 480
          { left := 0, top := 0, right := 0, bottom := 0 }).1 = [glDisable GL_SCISSOR_TEST]
      ∧ wrapInt32 (480 - 260) = 480 - 260 :=
  ⟨(viewport_scissor_conversion 480 OpenGLRenderer.sample Rect.sample).1 (by decide),
   (viewport_scissor_conversion 480 OpenGLRenderer.sample Rect.sampleFar).1 (by decide),
   (viewport_scissor_conversion 480 OpenGLRenderer.sample Rect.sample).2.1 (by decide),
   (viewport_scissor_conversion 480 OpenGLRenderer.sample
     { left := 0, top := 0, right := 0, bottom := 0 }).2.2.1 (by decide),
   (viewport_scissor_conversion 480 OpenGLRenderer.sample Rect.sample).2.2.2 (480 - 260)
     (by decide) (by decide)⟩

/-- C17 (clear with sub-rectangles): the complete sequence of calls of `Clear` is the set-up
calls (the optional `glClearColor`, `glDepthMask` and `glClearDepth`, none of which is a
buffer clear, a scissor rectangle or a switch of the scissor test) followed, for a non-empty
list of rectangles, by one enable of the scissor test, then for each rectangle in list order
its `glScissor` call directly followed by one `glClear` of the requested buffers, then one
disable of the scissor test, and followed, for an empty list, by exactly one `glClear`.  The
arguments of `glScissor` are `left`, `height - bottom`, `right - left` and `bottom - top`
as values of 32 bit `int` expressions. -/
theorem Clear_scissor_sequence (height : Int) (r : OpenGLRenderer) (bufferFlags : BufferFlags)
    (clearColor : Color) (clearDepth : GLfloat) (rects : List Rect) :
    (r.Clear height bufferFlags clearColor clearDepth rects).1
        = ((if bufferFlags.ColorBuffer = true then [glClearColor clearColor] else [])
            ++ (if bufferFlags.DepthBuffer = true ∧ ¬ r.m_glstate.depthWrite = true then
                  [glDepthMask true] else [])
            ++ (if bufferFlags.DepthBuffer = true then [glClearDepth clearDepth] else []))
          ++ (if rects = [] then [glClear bufferFlags.ColorBuffer bufferFlags.DepthBuffer]
              else
                [glEnable GL_SCISSOR_TEST]
                ++ (rects.map fun rc =>
                      [glScissor rc.left (wrapInt32 (height - rc.bottom))
                        (wrapInt32 (rc.right - rc.left)) (wrapInt32 (rc.bottom - rc.top)),
                       glClear bufferFlags.ColorBuffer bufferFlags.DepthBuffer]).flatten
                ++ [glDisable GL_SCISSOR_TEST])
      ∧ ((if bufferFlags.ColorBuffer = true then [glClearColor clearColor] else [])
            ++ (if bufferFlags.DepthBuffer = true ∧ ¬ r.m_glstate.depthWrite = true then
                  [glDepthMask true] else [])
            ++ (if bufferFlags.DepthBuffer = true then [glClearDepth clearDepth]
                else [])).filter GLcall.isScissorOrClear = [] := by
  constructor
  · rw [Clear_calls_eq]
    congr 1
    by_cases hr : rects = []
    · subst hr
      simp
    · have hlen : rects.length ≠ 0 := fun e => hr (List.length_eq_zero.1 e)
      rw [if_pos hlen, if_neg hr]
      simp only [Rect.width, Rect.height]
  · simp only [List.filter_append]
    have h1 : (if bufferFlags.ColorBuffer = true then [glClearColor clearColor] else []).filter
        GLcall.isScissorOrClear = [] := by
      split_ifs <;> simp [GLcall.isScissorOrClear]
    have h2 : (if bufferFlags.DepthBuffer = true ∧ ¬ r.m_glstate.depthWrite = true then
        [glDepthMask true] else []).filter GLcall.isScissorOrClear = [] := by
      split_ifs <;> simp [GLcall.isScissorOrClear]
    have h3 : (if bufferFlags.DepthBuffer = true then [glClearDepth clearDepth] else []).filter
        GLcall.isScissorOrClear = [] := by
      split_ifs <;> simp [GLcall.isScissorOrClear]
    rw [h1, h2, h3]
    rfl

/-- Witness for C17: a clear of both buffers of the sample renderer, in a window of height
480, over the sample rectangle and the rectangle far up: the complete trace. -/
theorem Clear_scissor_sequence_witness :
    (OpenGLRenderer.sample.Clear 480 { ColorBuffer := true, DepthBuffer := true } Color.none 1
        [Rect.sample, Rect.sampleFar]).1
      = [glClearColor Color.none, glClearDepth 1,
         glEnable GL_SCISSOR_TEST,
         glScissor 10 220 320 240, glClear true true,
         glScissor 0 (-2147483169) 10 1, glClear true true,
         glDisable GL_SCISSOR_TEST] :=
  (Clear_scissor_sequence 480 OpenGLRenderer.sample { ColorBuffer := true, DepthBuffer := true }
    Color.none 1 [Rect.sample, Rect.sampleFar]).1.trans (by decide)

end Arx
